import Mathlib

/-! # TCP three-way handshake simulation: header codec and handshake scripts

A shallow embedding of `program4/client/client.c` and `program4/server/server.c`.

* Unsigned machine integers (`uint8_t`, `uint16_t`, `uint32_t`) are natural numbers; the
  arithmetic the programs do on them is reduced modulo `2^32` explicitly.
* The byte order of the host is a parameter (`ByteOrder`): `htons`, `htonl`, `ntohs`, `ntohl`
  and the object representation that `memcpy` copies all depend on it.
* A byte buffer (`unsigned char *`) is a `List Nat`; functions that write through a pointer
  take the old buffer / old struct and return the new one.
* The two output streams (console and output file) are a pair of strings that `printf` and
  `fprintf` append to.
-/

namespace Handshake

/-! ## Constants (`#define`s, lines 18-22 of both files) -/

def HEADER_SIZE : Nat := 20
def FLAG_SYN : Nat := 0x02
def FLAG_ACK : Nat := 0x10
def FLAG_SYNACK : Nat := 0x12
def WINDOW_SIZE : Nat := 17520

/-! ## The host: byte order, object representation, libc helpers -/

/-- Byte order of the machine the program runs on. -/
inductive ByteOrder where
  | little
  | big
  deriving DecidableEq, Repr

/-- The `n` low-order bytes of `v`, least significant first. -/
def leBytes : Nat → Nat → List Nat
  | 0, _ => []
  | n + 1, v => v % 256 :: leBytes n (v / 256)

/-- Value of a byte string read least significant byte first. -/
def leVal : List Nat → Nat
  | [] => 0
  | b :: bs => b + 256 * leVal bs

/-- Object representation in host memory of an unsigned integer occupying `n` bytes. -/
def objBytes (e : ByteOrder) (n v : Nat) : List Nat :=
  match e with
  | ByteOrder.little => leBytes n v
  | ByteOrder.big => (leBytes n v).reverse

/-- The unsigned integer whose object representation in host memory is `bs`. -/
def objVal (e : ByteOrder) (bs : List Nat) : Nat :=
  match e with
  | ByteOrder.little => leVal bs
  | ByteOrder.big => leVal bs.reverse

/-- Byte-by-byte copy of `src` into `buf` starting at offset `off`
(`memcpy(buf + off, src, src.length)`). -/
def writeBytes (buf : List Nat) (off : Nat) : List Nat → List Nat
  | [] => buf
  | b :: bs => writeBytes (buf.set off b) (off + 1) bs

/-- The `n` bytes of `buf` starting at offset `off` (the source of `memcpy(dst, buf + off, n)`). -/
def readBytes (buf : List Nat) (off n : Nat) : List Nat :=
  (buf.drop off).take n

/-- Conversion of a C `int` to `uint16_t`. -/
def toUint16 (x : Int) : Nat := (x % 65536).toNat

/-- Swap the two bytes of a 16-bit value. -/
def bswap16 (x : Nat) : Nat := (x % 256) * 256 + x / 256 % 256

/-- Reverse the four bytes of a 32-bit value. -/
def bswap32 (x : Nat) : Nat :=
  (x % 256) * 16777216 + (x / 256 % 256) * 65536 + (x / 65536 % 256) * 256 + x / 16777216 % 256

/-- Host to network (big-endian) conversion of a 16-bit value. -/
def htons (e : ByteOrder) (x : Nat) : Nat :=
  match e with
  | ByteOrder.little => bswap16 x
  | ByteOrder.big => x

/-- Host to network (big-endian) conversion of a 32-bit value. -/
def htonl (e : ByteOrder) (x : Nat) : Nat :=
  match e with
  | ByteOrder.little => bswap32 x
  | ByteOrder.big => x

/-- Network to host conversion of a 16-bit value. -/
def ntohs (e : ByteOrder) (x : Nat) : Nat :=
  match e with
  | ByteOrder.little => bswap16 x
  | ByteOrder.big => x

/-- Network to host conversion of a 32-bit value. -/
def ntohl (e : ByteOrder) (x : Nat) : Nat :=
  match e with
  | ByteOrder.little => bswap32 x
  | ByteOrder.big => x

/-- Addition of `uint32_t` values. -/
def add32 (a b : Nat) : Nat := (a + b) % 4294967296

/-! ## The header record (lines 25-35) -/

/-- The struct `tcp_header_t`; the multi-byte fields hold what the code stores in them,
that is, host integers whose object representation is the network-order byte string. -/
structure tcp_header_t where
  source_port : Nat
  dest_port : Nat
  seq_num : Nat
  ack_num : Nat
  data_offset : Nat
  flags : Nat
  window_size : Nat
  checksum : Nat
  urgent_ptr : Nat
  deriving DecidableEq, Repr

/-- Every field is within the range of its C type. -/
def tcp_header_t.inRange (h : tcp_header_t) : Prop :=
  h.source_port < 65536 ∧ h.dest_port < 65536 ∧ h.seq_num < 4294967296 ∧
  h.ack_num < 4294967296 ∧ h.data_offset < 256 ∧ h.flags < 256 ∧
  h.window_size < 65536 ∧ h.checksum < 65536 ∧ h.urgent_ptr < 65536

instance (h : tcp_header_t) : Decidable h.inRange := by
  unfold tcp_header_t.inRange; infer_instance

/-- A buffer of `unsigned char`: every element is a byte. -/
def isBytes (b : List Nat) : Prop := ∀ x ∈ b, x < 256

instance (b : List Nat) : Decidable (isBytes b) := by
  unfold isBytes; infer_instance

/-! ## Output streams -/

/-- The text written so far to the console and to the output file. -/
structure Output where
  console : String
  file : String
  deriving DecidableEq, Repr

/-- Writing text to standard output. -/
def printf (s : String) (o : Output) : Output := { o with console := o.console ++ s }

/-- Writing text to `output_file`. -/
def fprintf (s : String) (o : Output) : Output := { o with file := o.file ++ s }

/-- Upper-case hexadecimal digit. -/
def hexDigitUpper (d : Nat) : Char :=
  if d < 10 then Char.ofNat (48 + d) else Char.ofNat (55 + d)

/-- Upper-case hexadecimal digits of `n`, most significant first, at least one digit. -/
def hexUpper (n : Nat) : List Char :=
  (Nat.toDigits 16 n).map Char.toUpper

/-- The conversion `%02X` of an `unsigned char` promoted to `int`: upper-case hexadecimal,
padded with zeros on the left to at least two characters. -/
def fmt02X (n : Nat) : String :=
  let ds := hexUpper n
  String.mk (List.replicate (2 - ds.length) '0' ++ ds)

/-- The conversions `%d` of a non-negative `int` and `%u` of an `unsigned`: decimal digits. -/
def fmtDec (n : Nat) : String := Nat.repr n

/-- The call `recv(sock, buf, len, 0)` when the peer's pending bytes are `incoming`: at most
`len` of them are copied to the start of `buf`. -/
def recv (incoming buf : List Nat) (len : Nat) : List Nat :=
  writeBytes buf 0 (incoming.take len)

/-- The bytes handed to `send(sock, buf, len, 0)`. -/
def send (buf : List Nat) (len : Nat) : List Nat := buf.take len

/-! ## Functions of `client.c` (lines 41-121) -/

namespace client

/-- Lines 41-52 of `client.c`: a title, then each of the first `size` bytes as `%02X` followed
by a space, then a newline; every piece goes to the console and to the file. -/
def print_raw_header (header : List Nat) (size : Nat) (o : Output) : Output :=
  let o := printf "Raw TCP Header: " o
  let o := fprintf "Raw TCP Header: " o
  let o := (List.range size).foldl
    (fun o i =>
      let o := printf (fmt02X (header.getD i 0) ++ " ") o
      fprintf (fmt02X (header.getD i 0) ++ " ") o) o
  let o := printf "\n" o
  fprintf "\n" o

/-- Lines 55-82 of `client.c`: the decoded fields, one per line, then the flags line. -/
def print_tcp_header (e : ByteOrder) (header : tcp_header_t) (o : Output) : Output :=
  let o := printf ("Source port: " ++ fmtDec (ntohs e header.source_port) ++ "\n") o
  let o := fprintf ("Source port: " ++ fmtDec (ntohs e header.source_port) ++ "\n") o
  let o := printf ("Destination port: " ++ fmtDec (ntohs e header.dest_port) ++ "\n") o
  let o := fprintf ("Destination port: " ++ fmtDec (ntohs e header.dest_port) ++ "\n") o
  let o := printf ("Sequence number: " ++ fmtDec (ntohl e header.seq_num) ++ "\n") o
  let o := fprintf ("Sequence number: " ++ fmtDec (ntohl e header.seq_num) ++ "\n") o
  let o := printf ("Acknowledgment number: " ++ fmtDec (ntohl e header.ack_num) ++ "\n") o
  let o := fprintf ("Acknowledgment number: " ++ fmtDec (ntohl e header.ack_num) ++ "\n") o
  let o := printf "Flags: " o
  let o := fprintf "Flags: " o
  let o := if header.flags &&& FLAG_SYN ≠ 0 then fprintf "SYN " (printf "SYN " o) else o
  let o := if header.flags &&& FLAG_ACK ≠ 0 then fprintf "ACK " (printf "ACK " o) else o
  let o := printf "\n" o
  fprintf "\n" o

/-- Lines 85-95 of `client.c`. The ports are C `int`s, converted to `uint16_t` when passed to
`htons`. -/
def create_tcp_header (e : ByteOrder) (header : tcp_header_t) (src_port dst_port : Int)
    (seq_num ack_num flags : Nat) : tcp_header_t :=
  let header := { header with source_port := htons e (toUint16 src_port) }
  let header := { header with dest_port := htons e (toUint16 dst_port) }
  let header := { header with seq_num := htonl e seq_num }
  let header := { header with ack_num := htonl e ack_num }
  let header := { header with data_offset := 0x50 }
  let header := { header with flags := flags }
  let header := { header with window_size := htons e WINDOW_SIZE }
  let header := { header with checksum := htons e 0xFFFF }
  { header with urgent_ptr := 0 }

/-- Lines 98-108 of `client.c`. -/
def serialize_tcp_header (e : ByteOrder) (header : tcp_header_t) (buffer : List Nat) :
    List Nat :=
  let buffer := writeBytes buffer 0 (objBytes e 2 header.source_port)
  let buffer := writeBytes buffer 2 (objBytes e 2 header.dest_port)
  let buffer := writeBytes buffer 4 (objBytes e 4 header.seq_num)
  let buffer := writeBytes buffer 8 (objBytes e 4 header.ack_num)
  let buffer := buffer.set 12 header.data_offset
  let buffer := buffer.set 13 header.flags
  let buffer := writeBytes buffer 14 (objBytes e 2 header.window_size)
  let buffer := writeBytes buffer 16 (objBytes e 2 header.checksum)
  writeBytes buffer 18 (objBytes e 2 header.urgent_ptr)

/-- Lines 111-121 of `client.c`. -/
def deserialize_tcp_header (e : ByteOrder) (buffer : List Nat) (header : tcp_header_t) :
    tcp_header_t :=
  let header := { header with source_port := objVal e (readBytes buffer 0 2) }
  let header := { header with dest_port := objVal e (readBytes buffer 2 2) }
  let header := { header with seq_num := objVal e (readBytes buffer 4 4) }
  let header := { header with ack_num := objVal e (readBytes buffer 8 4) }
  let header := { header with data_offset := buffer.getD 12 0 }
  let header := { header with flags := buffer.getD 13 0 }
  let header := { header with window_size := objVal e (readBytes buffer 14 2) }
  let header := { header with checksum := objVal e (readBytes buffer 16 2) }
  { header with urgent_ptr := objVal e (readBytes buffer 18 2) }

/-! ## The handshake script of `client.c` (`main`, lines 178-210)

Lines 124-176 (argument check, opening the output file, `rand`, `socket`, `connect`,
`getsockname`) set up the values the script starts from; they are the initial `State`. -/

/-- The local variables of `main` that the script uses, the two output streams, and the
messages passed to `send` so far (oldest first). -/
structure State where
  port : Int
  src_port : Int
  header_buffer : List Nat
  header : tcp_header_t
  client_seq_num : Nat
  server_seq_num : Nat
  out : Output
  sent : List (List Nat)
  deriving DecidableEq, Repr

/-- Step 1, lines 178-186: build, log and send the SYN. -/
def main_step1 (e : ByteOrder) (st : State) : State :=
  let o := printf "\n--- Step 1: Client sends SYN ---\n" st.out
  let o := fprintf "\n--- Step 1: Client sends SYN ---\n" o
  let header := create_tcp_header e st.header st.src_port st.port st.client_seq_num 0 FLAG_SYN
  let header_buffer := serialize_tcp_header e header st.header_buffer
  let o := print_raw_header header_buffer HEADER_SIZE o
  let o := print_tcp_header e header o
  { st with header := header, header_buffer := header_buffer, out := o,
            sent := st.sent ++ [send header_buffer HEADER_SIZE] }

/-- Step 2, lines 188-197: receive, parse and log the SYN-ACK, keep its sequence number. -/
def main_step2 (e : ByteOrder) (incoming : List Nat) (st : State) : State :=
  let o := printf "\n--- Step 2: Client receives SYN-ACK ---\n" st.out
  let o := fprintf "\n--- Step 2: Client receives SYN-ACK ---\n" o
  let header_buffer := recv incoming st.header_buffer HEADER_SIZE
  let header := deserialize_tcp_header e header_buffer st.header
  let o := print_raw_header header_buffer HEADER_SIZE o
  let o := print_tcp_header e header o
  { st with header := header, header_buffer := header_buffer, out := o,
            server_seq_num := ntohl e header.seq_num }

/-- Step 3, lines 199-210: build, log and send the ACK, then report completion. -/
def main_step3 (e : ByteOrder) (st : State) : State :=
  let o := printf "\n--- Step 3: Client sends ACK ---\n" st.out
  let o := fprintf "\n--- Step 3: Client sends ACK ---\n" o
  let header := create_tcp_header e st.header st.src_port st.port
    (add32 st.client_seq_num 1) (add32 st.server_seq_num 1) FLAG_ACK
  let header_buffer := serialize_tcp_header e header st.header_buffer
  let o := print_raw_header header_buffer HEADER_SIZE o
  let o := print_tcp_header e header o
  let sent := st.sent ++ [send header_buffer HEADER_SIZE]
  let o := printf "\n3-way handshake completed successfully!\n" o
  let o := fprintf "\n3-way handshake completed successfully!\n" o
  { st with header := header, header_buffer := header_buffer, out := o, sent := sent }

/-- Steps 2 and 3 in sequence: what the client does once `incoming` arrives. -/
def main_step23 (e : ByteOrder) (incoming : List Nat) (st : State) : State :=
  main_step3 e (main_step2 e incoming st)

/-- The whole script, lines 178-210, when the bytes that arrive in step 2 are `incoming`. -/
def main (e : ByteOrder) (incoming : List Nat) (st : State) : State :=
  main_step23 e incoming (main_step1 e st)

end client

/-! ## Functions of `server.c` (lines 41-121) -/

namespace server

/-- Lines 41-52 of `server.c`: a title, then each of the first `size` bytes as `%02X` followed
by a space, then a newline; every piece goes to the console and to the file. -/
def print_raw_header (header : List Nat) (size : Nat) (o : Output) : Output :=
  let o := printf "Raw TCP Header: " o
  let o := fprintf "Raw TCP Header: " o
  let o := (List.range size).foldl
    (fun o i =>
      let o := printf (fmt02X (header.getD i 0) ++ " ") o
      fprintf (fmt02X (header.getD i 0) ++ " ") o) o
  let o := printf "\n" o
  fprintf "\n" o

/-- Lines 55-82 of `server.c`: the decoded fields, one per line, then the flags line. -/
def print_tcp_header (e : ByteOrder) (header : tcp_header_t) (o : Output) : Output :=
  let o := printf ("Source port: " ++ fmtDec (ntohs e header.source_port) ++ "\n") o
  let o := fprintf ("Source port: " ++ fmtDec (ntohs e header.source_port) ++ "\n") o
  let o := printf ("Destination port: " ++ fmtDec (ntohs e header.dest_port) ++ "\n") o
  let o := fprintf ("Destination port: " ++ fmtDec (ntohs e header.dest_port) ++ "\n") o
  let o := printf ("Sequence number: " ++ fmtDec (ntohl e header.seq_num) ++ "\n") o
  let o := fprintf ("Sequence number: " ++ fmtDec (ntohl e header.seq_num) ++ "\n") o
  let o := printf ("Acknowledgment number: " ++ fmtDec (ntohl e header.ack_num) ++ "\n") o
  let o := fprintf ("Acknowledgment number: " ++ fmtDec (ntohl e header.ack_num) ++ "\n") o
  let o := printf "Flags: " o
  let o := fprintf "Flags: " o
  let o := if header.flags &&& FLAG_SYN ≠ 0 then fprintf "SYN " (printf "SYN " o) else o
  let o := if header.flags &&& FLAG_ACK ≠ 0 then fprintf "ACK " (printf "ACK " o) else o
  let o := printf "\n" o
  fprintf "\n" o

/-- Lines 85-95 of `server.c`. The ports are C `int`s, converted to `uint16_t` when passed to
`htons`. -/
def create_tcp_header (e : ByteOrder) (header : tcp_header_t) (src_port dst_port : Int)
    (seq_num ack_num flags : Nat) : tcp_header_t :=
  let header := { header with source_port := htons e (toUint16 src_port) }
  let header := { header with dest_port := htons e (toUint16 dst_port) }
  let header := { header with seq_num := htonl e seq_num }
  let header := { header with ack_num := htonl e ack_num }
  let header := { header with data_offset := 0x50 }
  let header := { header with flags := flags }
  let header := { header with window_size := htons e WINDOW_SIZE }
  let header := { header with checksum := htons e 0xFFFF }
  { header with urgent_ptr := 0 }

/-- Lines 98-108 of `server.c`. -/
def serialize_tcp_header (e : ByteOrder) (header : tcp_header_t) (buffer : List Nat) :
    List Nat :=
  let buffer := writeBytes buffer 0 (objBytes e 2 header.source_port)
  let buffer := writeBytes buffer 2 (objBytes e 2 header.dest_port)
  let buffer := writeBytes buffer 4 (objBytes e 4 header.seq_num)
  let buffer := writeBytes buffer 8 (objBytes e 4 header.ack_num)
  let buffer := buffer.set 12 header.data_offset
  let buffer := buffer.set 13 header.flags
  let buffer := writeBytes buffer 14 (objBytes e 2 header.window_size)
  let buffer := writeBytes buffer 16 (objBytes e 2 header.checksum)
  writeBytes buffer 18 (objBytes e 2 header.urgent_ptr)

/-- Lines 111-121 of `server.c`. -/
def deserialize_tcp_header (e : ByteOrder) (buffer : List Nat) (header : tcp_header_t) :
    tcp_header_t :=
  let header := { header with source_port := objVal e (readBytes buffer 0 2) }
  let header := { header with dest_port := objVal e (readBytes buffer 2 2) }
  let header := { header with seq_num := objVal e (readBytes buffer 4 4) }
  let header := { header with ack_num := objVal e (readBytes buffer 8 4) }
  let header := { header with data_offset := buffer.getD 12 0 }
  let header := { header with flags := buffer.getD 13 0 }
  let header := { header with window_size := objVal e (readBytes buffer 14 2) }
  let header := { header with checksum := objVal e (readBytes buffer 16 2) }
  { header with urgent_ptr := objVal e (readBytes buffer 18 2) }

/-! ## The handshake script of `server.c` (`main`, lines 197-227)

Lines 124-195 (argument check, opening the output file, `rand`, `socket`, `bind`, `listen`,
`accept`) set up the values the script starts from; they are the initial `State`. -/

/-- The local variables of `main` that the script uses, the two output streams, and the
messages passed to `send` so far (oldest first). -/
structure State where
  port : Int
  header_buffer : List Nat
  header : tcp_header_t
  server_seq_num : Nat
  client_seq_num : Nat
  out : Output
  sent : List (List Nat)
  deriving DecidableEq, Repr

/-- Step 1, lines 197-206: receive, parse and log the SYN, keep its sequence number. -/
def main_step1 (e : ByteOrder) (incoming : List Nat) (st : State) : State :=
  let o := printf "\n--- Step 1: Server receives SYN ---\n" st.out
  let o := fprintf "\n--- Step 1: Server receives SYN ---\n" o
  let header_buffer := recv incoming st.header_buffer HEADER_SIZE
  let header := deserialize_tcp_header e header_buffer st.header
  let o := print_raw_header header_buffer HEADER_SIZE o
  let o := print_tcp_header e header o
  { st with header := header, header_buffer := header_buffer, out := o,
            client_seq_num := ntohl e header.seq_num }

/-- Step 2, lines 208-216: build, log and send the SYN-ACK. -/
def main_step2 (e : ByteOrder) (st : State) : State :=
  let o := printf "\n--- Step 2: Server sends SYN-ACK ---\n" st.out
  let o := fprintf "\n--- Step 2: Server sends SYN-ACK ---\n" o
  let header := create_tcp_header e st.header st.port (ntohs e st.header.source_port)
    st.server_seq_num (add32 st.client_seq_num 1) FLAG_SYNACK
  let header_buffer := serialize_tcp_header e header st.header_buffer
  let o := print_raw_header header_buffer HEADER_SIZE o
  let o := print_tcp_header e header o
  { st with header := header, header_buffer := header_buffer, out := o,
            sent := st.sent ++ [send header_buffer HEADER_SIZE] }

/-- Step 3, lines 218-227: receive, parse and log the ACK, then report completion. -/
def main_step3 (e : ByteOrder) (incoming : List Nat) (st : State) : State :=
  let o := printf "\n--- Step 3: Server receives ACK ---\n" st.out
  let o := fprintf "\n--- Step 3: Server receives ACK ---\n" o
  let header_buffer := recv incoming st.header_buffer HEADER_SIZE
  let header := deserialize_tcp_header e header_buffer st.header
  let o := print_raw_header header_buffer HEADER_SIZE o
  let o := print_tcp_header e header o
  let o := printf "\n3-way handshake completed successfully!\n" o
  let o := fprintf "\n3-way handshake completed successfully!\n" o
  { st with header := header, header_buffer := header_buffer, out := o }

/-- Steps 1 and 2 in sequence: what the server does once `incoming` arrives. -/
def main_step12 (e : ByteOrder) (incoming : List Nat) (st : State) : State :=
  main_step2 e (main_step1 e incoming st)

/-- The whole script, lines 197-227, when the bytes that arrive in step 1 are `incoming1`
and those that arrive in step 3 are `incoming3`. -/
def main (e : ByteOrder) (incoming1 incoming3 : List Nat) (st : State) : State :=
  main_step3 e incoming3 (main_step12 e incoming1 st)

end server

/-! ## Vocabulary of the wire format -/

/-- Big-endian 16-bit value of bytes `i` and `i+1` of a buffer. -/
def be16 (b : List Nat) (i : Nat) : Nat := 256 * b.getD i 0 + b.getD (i + 1) 0

/-- Big-endian 32-bit value of bytes `i` to `i+3` of a buffer. -/
def be32 (b : List Nat) (i : Nat) : Nat :=
  16777216 * b.getD i 0 + 65536 * b.getD (i + 1) 0 + 256 * b.getD (i + 2) 0 + b.getD (i + 3) 0

/-- The 20 bytes of a header on the wire, written out: ports, sequence and acknowledgment
numbers most significant byte first, then the constant bytes around the flags byte. -/
def wire (src_port dst_port : Int) (seq_num ack_num flags : Nat) : List Nat :=
  [toUint16 src_port / 256 % 256, toUint16 src_port % 256,
   toUint16 dst_port / 256 % 256, toUint16 dst_port % 256,
   seq_num / 16777216 % 256, seq_num / 65536 % 256, seq_num / 256 % 256, seq_num % 256,
   ack_num / 16777216 % 256, ack_num / 65536 % 256, ack_num / 256 % 256, ack_num % 256,
   0x50, flags, 0x44, 0x70, 0xFF, 0xFF, 0x00, 0x00]

/-- Follows the spec's words: the decoded fields of the twenty wire bytes `b` as the log
shows them, namely the two ports and the two numbers read most significant byte first and
printed in decimal, then a flags line with "SYN " when bit 0x02 of byte 13 is set followed
by "ACK " when bit 0x10 of byte 13 is set. -/
def decodedText (b : List Nat) : String :=
  ("Source port: " ++ fmtDec (256 * b.getD 0 0 + b.getD 1 0) ++ "\n") ++
  ("Destination port: " ++ fmtDec (256 * b.getD 2 0 + b.getD 3 0) ++ "\n") ++
  ("Sequence number: " ++ fmtDec (be32 b 4) ++ "\n") ++
  ("Acknowledgment number: " ++ fmtDec (be32 b 8) ++ "\n") ++
  ("Flags: " ++ (if (b.getD 13 0).testBit 1 then "SYN " else "") ++
    (if (b.getD 13 0).testBit 4 then "ACK " else "") ++ "\n")

/-- Follows the spec's words: the bytes of `b` in order, each as two upper-case hexadecimal
digits followed by a space, after the title and before the newline. -/
def rawText (b : List Nat) : String :=
  "Raw TCP Header: " ++
  String.join (b.map fun x => String.mk [hexDigitUpper (x / 16), hexDigitUpper (x % 16), ' ']) ++
  "\n"

/-! ## Concrete inputs used to instantiate the theorems -/

/-- A SYN-ACK header (ports 8080 and 54321) as a little-endian host stores it. -/
def sampleHeader : tcp_header_t :=
  ⟨0x901F, 0x31D4, 0x78563412, 0x01000000, 0x50, 0x12, 0x7044, 0xFFFF, 0⟩

/-- Left-over contents of the `header` variable. -/
def staleHeader : tcp_header_t := ⟨1, 2, 3, 4, 5, 6, 7, 8, 9⟩

/-- Left-over contents of `header_buffer`. -/
def staleBuffer : List Nat := List.replicate 20 0xAA

/-- A SYN on the wire: ports 54321 and 8080, sequence number 0xFFFFFFFF. -/
def sampleSyn : List Nat :=
  [0xD4, 0x31, 0x1F, 0x90, 0xFF, 0xFF, 0xFF, 0xFF, 0, 0, 0, 0, 0x50, 0x02, 0x44, 0x70,
   0xFF, 0xFF, 0, 0]

/-- A SYN-ACK on the wire: ports 8080 and 54321, sequence number 0xFFFFFFFF,
acknowledgment number 0. -/
def sampleSynAck : List Nat :=
  [0x1F, 0x90, 0xD4, 0x31, 0xFF, 0xFF, 0xFF, 0xFF, 0, 0, 0, 0, 0x50, 0x12, 0x44, 0x70,
   0xFF, 0xFF, 0, 0]

/-- A client about to start step 1: server port 8080, local port 54321, initial sequence
number 0xFFFFFFFF, nothing logged or sent yet. -/
def sampleClient : client.State :=
  { port := 8080, src_port := 54321, header_buffer := staleBuffer, header := staleHeader,
    client_seq_num := 0xFFFFFFFF, server_seq_num := 0, out := ⟨"", ""⟩, sent := [] }

/-- A server about to start step 1: listening port 8080, initial sequence number
0xFFFFFFFF, nothing logged or sent yet. -/
def sampleServer : server.State :=
  { port := 8080, header_buffer := staleBuffer, header := staleHeader,
    server_seq_num := 0xFFFFFFFF, client_seq_num := 0, out := ⟨"", ""⟩, sent := [] }

/-- The last message passed to `send`, if any. -/
def lastSent (sent : List (List Nat)) : List Nat := sent.getLastD []

/-- The client and the server run against each other on hosts of byte order `ec` and `es`,
over a channel that delivers every message unchanged: the client's SYN is what the server
receives in step 1, the server's SYN-ACK is what the client receives in step 2, the
client's ACK is what the server receives in step 3. -/
def handshake (ec es : ByteOrder) (c : client.State) (s : server.State) :
    client.State × server.State :=
  let c1 := client.main_step1 ec c
  let s2 := server.main_step12 es (lastSent c1.sent) s
  let c3 := client.main_step23 ec (lastSent s2.sent) c1
  let s3 := server.main_step3 es (lastSent c3.sent) s2
  (c3, s3)

end Handshake

/-! # Theorems -/

namespace Handshake

theorem leBytes2_bswap16 (x : Nat) : leBytes 2 (bswap16 x) = [x / 256 % 256, x % 256] := by
  have h0 : x % 256 < 256 := Nat.mod_lt _ (by decide)
  have h1 : x / 256 % 256 < 256 := Nat.mod_lt _ (by decide)
  simp only [leBytes, bswap16]
  generalize x % 256 = p at *
  generalize x / 256 % 256 = q at *
  simp only [List.cons.injEq, and_true]
  constructor <;> omega

theorem leBytes4_bswap32 (x : Nat) :
    leBytes 4 (bswap32 x) = [x / 16777216 % 256, x / 65536 % 256, x / 256 % 256, x % 256] := by
  have h0 : x % 256 < 256 := Nat.mod_lt _ (by decide)
  have h1 : x / 256 % 256 < 256 := Nat.mod_lt _ (by decide)
  have h2 : x / 65536 % 256 < 256 := Nat.mod_lt _ (by decide)
  have h3 : x / 16777216 % 256 < 256 := Nat.mod_lt _ (by decide)
  simp only [leBytes, bswap32]
  generalize x % 256 = p at *
  generalize x / 256 % 256 = q at *
  generalize x / 65536 % 256 = r at *
  generalize x / 16777216 % 256 = s at *
  simp only [List.cons.injEq, and_true]
  refine ⟨?_, ?_, ?_, ?_⟩ <;> omega

theorem objBytes2_htons (e : ByteOrder) (x : Nat) :
    objBytes e 2 (htons e x) = [x / 256 % 256, x % 256] := by
  cases e
  · simp only [objBytes, htons, leBytes2_bswap16]
  · simp [objBytes, htons, leBytes]

theorem objBytes4_htonl (e : ByteOrder) (x : Nat) :
    objBytes e 4 (htonl e x) =
      [x / 16777216 % 256, x / 65536 % 256, x / 256 % 256, x % 256] := by
  cases e
  · simp only [objBytes, htonl, leBytes4_bswap32]
  · simp [objBytes, htonl, leBytes]; omega

theorem ntohs_objVal (e : ByteOrder) (a b : Nat) (ha : a < 256) (hb : b < 256) :
    ntohs e (objVal e [a, b]) = 256 * a + b := by
  cases e <;> simp [objVal, leVal, ntohs, bswap16] <;> omega

theorem ntohl_objVal (e : ByteOrder) (a b c d : Nat) (ha : a < 256) (hb : b < 256)
    (hc : c < 256) (hd : d < 256) :
    ntohl e (objVal e [a, b, c, d]) = 16777216 * a + 65536 * b + 256 * c + d := by
  cases e <;> simp [objVal, leVal, ntohl, bswap32] <;> omega

theorem objVal_objBytes2 (e : ByteOrder) (x : Nat) (hx : x < 65536) :
    objVal e (objBytes e 2 x) = x := by
  cases e <;> simp [objVal, objBytes, leBytes, leVal] <;> omega

theorem objVal_objBytes4 (e : ByteOrder) (x : Nat) (hx : x < 4294967296) :
    objVal e (objBytes e 4 x) = x := by
  cases e <;> simp [objVal, objBytes, leBytes, leVal] <;> omega

theorem objBytes2_objVal (e : ByteOrder) (a b : Nat) (ha : a < 256) (hb : b < 256) :
    objBytes e 2 (objVal e [a, b]) = [a, b] := by
  cases e <;> simp [objVal, objBytes, leBytes, leVal] <;> omega

theorem objBytes4_objVal (e : ByteOrder) (a b c d : Nat) (ha : a < 256) (hb : b < 256)
    (hc : c < 256) (hd : d < 256) :
    objBytes e 4 (objVal e [a, b, c, d]) = [a, b, c, d] := by
  cases e <;> simp [objVal, objBytes, leBytes, leVal] <;> omega

set_option maxRecDepth 100000 in
theorem fmt02X_eq (x : Nat) (hx : x < 256) :
    fmt02X x = String.mk [hexDigitUpper (x / 16), hexDigitUpper (x % 16)] := by
  revert x; decide

set_option maxRecDepth 100000 in
theorem flag_syn_iff (b : Nat) (hb : b < 256) : b &&& FLAG_SYN ≠ 0 ↔ b.testBit 1 = true := by
  revert b; unfold FLAG_SYN; decide

set_option maxRecDepth 100000 in
theorem flag_ack_iff (b : Nat) (hb : b < 256) : b &&& FLAG_ACK ≠ 0 ↔ b.testBit 4 = true := by
  revert b; unfold FLAG_ACK; decide


theorem exists_cons_of_succ_le_length (n : Nat) (l : List Nat) (h : n + 1 ≤ l.length) :
    ∃ a t, l = a :: t ∧ n ≤ t.length := by
  cases l with
  | nil => simp at h
  | cons a t => exact ⟨a, t, rfl, by simpa using h⟩

/-- A buffer of at least twenty bytes, seen as its first twenty bytes and the rest. -/
theorem exists_twenty_of_le_length (l : List Nat) (h : 20 ≤ l.length) :
    ∃ a0 a1 a2 a3 a4 a5 a6 a7 a8 a9 a10 a11 a12 a13 a14 a15 a16 a17 a18 a19 t,
      l = a0 :: a1 :: a2 :: a3 :: a4 :: a5 :: a6 :: a7 :: a8 :: a9 :: a10 :: a11 :: a12 :: a13 :: a14 :: a15 :: a16 :: a17 :: a18 :: a19 :: t ∧
        t.length + 20 = l.length := by
  obtain ⟨a0, l0, e0, h0⟩ := exists_cons_of_succ_le_length 19 l h
  subst e0
  obtain ⟨a1, l1, e1, h1⟩ := exists_cons_of_succ_le_length 18 l0 h0
  subst e1
  obtain ⟨a2, l2, e2, h2⟩ := exists_cons_of_succ_le_length 17 l1 h1
  subst e2
  obtain ⟨a3, l3, e3, h3⟩ := exists_cons_of_succ_le_length 16 l2 h2
  subst e3
  obtain ⟨a4, l4, e4, h4⟩ := exists_cons_of_succ_le_length 15 l3 h3
  subst e4
  obtain ⟨a5, l5, e5, h5⟩ := exists_cons_of_succ_le_length 14 l4 h4
  subst e5
  obtain ⟨a6, l6, e6, h6⟩ := exists_cons_of_succ_le_length 13 l5 h5
  subst e6
  obtain ⟨a7, l7, e7, h7⟩ := exists_cons_of_succ_le_length 12 l6 h6
  subst e7
  obtain ⟨a8, l8, e8, h8⟩ := exists_cons_of_succ_le_length 11 l7 h7
  subst e8
  obtain ⟨a9, l9, e9, h9⟩ := exists_cons_of_succ_le_length 10 l8 h8
  subst e9
  obtain ⟨a10, l10, e10, h10⟩ := exists_cons_of_succ_le_length 9 l9 h9
  subst e10
  obtain ⟨a11, l11, e11, h11⟩ := exists_cons_of_succ_le_length 8 l10 h10
  subst e11
  obtain ⟨a12, l12, e12, h12⟩ := exists_cons_of_succ_le_length 7 l11 h11
  subst e12
  obtain ⟨a13, l13, e13, h13⟩ := exists_cons_of_succ_le_length 6 l12 h12
  subst e13
  obtain ⟨a14, l14, e14, h14⟩ := exists_cons_of_succ_le_length 5 l13 h13
  subst e14
  obtain ⟨a15, l15, e15, h15⟩ := exists_cons_of_succ_le_length 4 l14 h14
  subst e15
  obtain ⟨a16, l16, e16, h16⟩ := exists_cons_of_succ_le_length 3 l15 h15
  subst e16
  obtain ⟨a17, l17, e17, h17⟩ := exists_cons_of_succ_le_length 2 l16 h16
  subst e17
  obtain ⟨a18, l18, e18, h18⟩ := exists_cons_of_succ_le_length 1 l17 h17
  subst e18
  obtain ⟨a19, l19, e19, h19⟩ := exists_cons_of_succ_le_length 0 l18 h18
  subst e19
  exact ⟨a0, a1, a2, a3, a4, a5, a6, a7, a8, a9, a10, a11, a12, a13, a14, a15, a16, a17, a18, a19, l19, rfl, by simp⟩

/-- A buffer of exactly twenty bytes, seen as its twenty bytes. -/
theorem exists_twenty_of_length_eq (l : List Nat) (h : l.length = 20) :
    ∃ a0 a1 a2 a3 a4 a5 a6 a7 a8 a9 a10 a11 a12 a13 a14 a15 a16 a17 a18 a19,
      l = [a0, a1, a2, a3, a4, a5, a6, a7, a8, a9, a10, a11, a12, a13, a14, a15, a16, a17, a18, a19] := by
  obtain ⟨a0, a1, a2, a3, a4, a5, a6, a7, a8, a9, a10, a11, a12, a13, a14, a15, a16, a17, a18, a19, t, e, ht⟩ := exists_twenty_of_le_length l (by omega)
  have : t = [] := List.length_eq_zero.mp (by omega)
  subst this
  exact ⟨a0, a1, a2, a3, a4, a5, a6, a7, a8, a9, a10, a11, a12, a13, a14, a15, a16, a17, a18, a19, e⟩

theorem server_serialize_eq_client : @server.serialize_tcp_header = @client.serialize_tcp_header :=
  rfl

theorem server_deserialize_eq_client :
    @server.deserialize_tcp_header = @client.deserialize_tcp_header := rfl

theorem server_create_eq_client : @server.create_tcp_header = @client.create_tcp_header := rfl

theorem server_print_tcp_eq_client : @server.print_tcp_header = @client.print_tcp_header := rfl

theorem server_print_raw_eq_client : @server.print_raw_header = @client.print_raw_header := rfl

/-- What `serialize_tcp_header` leaves in a buffer of at least twenty bytes: the object
representations of the fields in order, and the bytes from offset 20 on untouched. -/
theorem serialize_eq (e : ByteOrder) (h : tcp_header_t) (buf : List Nat)
    (hlen : 20 ≤ buf.length) :
    client.serialize_tcp_header e h buf =
      objBytes e 2 h.source_port ++ objBytes e 2 h.dest_port ++ objBytes e 4 h.seq_num ++
        objBytes e 4 h.ack_num ++ [h.data_offset, h.flags] ++ objBytes e 2 h.window_size ++
        objBytes e 2 h.checksum ++ objBytes e 2 h.urgent_ptr ++ buf.drop 20 := by
  obtain ⟨a0, a1, a2, a3, a4, a5, a6, a7, a8, a9, a10, a11, a12, a13, a14, a15, a16, a17, a18, a19, t, rfl, -⟩ := exists_twenty_of_le_length buf hlen
  cases e <;> simp [client.serialize_tcp_header, writeBytes, objBytes, leBytes]

/-- The header that `deserialize_tcp_header` reads from twenty given bytes. -/
theorem deserialize_eq (e : ByteOrder) (h : tcp_header_t)
    (a0 a1 a2 a3 a4 a5 a6 a7 a8 a9 a10 a11 a12 a13 a14 a15 a16 a17 a18 a19 : Nat) (t : List Nat) :
    client.deserialize_tcp_header e (a0 :: a1 :: a2 :: a3 :: a4 :: a5 :: a6 :: a7 :: a8 :: a9 :: a10 :: a11 :: a12 :: a13 :: a14 :: a15 :: a16 :: a17 :: a18 :: a19 :: t) h =
      { source_port := objVal e [a0, a1], dest_port := objVal e [a2, a3],
        seq_num := objVal e [a4, a5, a6, a7], ack_num := objVal e [a8, a9, a10, a11],
        data_offset := a12, flags := a13, window_size := objVal e [a14, a15],
        checksum := objVal e [a16, a17], urgent_ptr := objVal e [a18, a19] } := by
  simp [client.deserialize_tcp_header, readBytes]

/-- Serializing a freshly created header gives the wire bytes, on either byte order. -/
theorem serialize_create_eq (e : ByteOrder) (h : tcp_header_t) (src_port dst_port : Int)
    (seq_num ack_num flags : Nat) (buf : List Nat) (hlen : 20 ≤ buf.length) :
    client.serialize_tcp_header e
        (client.create_tcp_header e h src_port dst_port seq_num ack_num flags) buf =
      wire src_port dst_port seq_num ack_num flags ++ buf.drop 20 := by
  rw [serialize_eq e _ buf hlen]
  simp only [client.create_tcp_header, objBytes2_htons, objBytes4_htonl, wire, WINDOW_SIZE]
  cases e <;> simp [objBytes, leBytes]

theorem recv_eq (incoming buf : List Nat) (hi : incoming.length = 20) (hb : buf.length = 20) :
    recv incoming buf HEADER_SIZE = incoming := by
  obtain ⟨a0, a1, a2, a3, a4, a5, a6, a7, a8, a9, a10, a11, a12, a13, a14, a15, a16, a17, a18, a19, rfl⟩ := exists_twenty_of_length_eq incoming hi
  obtain ⟨b0, b1, b2, b3, b4, b5, b6, b7, b8, b9, b10, b11, b12, b13, b14, b15, b16, b17, b18, b19, rfl⟩ := exists_twenty_of_length_eq buf hb
  simp [recv, HEADER_SIZE, writeBytes]

theorem send_eq (buf : List Nat) (hb : buf.length = 20) : send buf HEADER_SIZE = buf := by
  simp [send, HEADER_SIZE, ← hb]

theorem wire_length (src_port dst_port : Int) (seq_num ack_num flags : Nat) :
    (wire src_port dst_port seq_num ack_num flags).length = 20 := rfl

/-- Decoding what was encoded gives the header back, for a header whose fields are in range. -/
theorem deserialize_serialize (e : ByteOrder) (h h0 : tcp_header_t) (buf : List Nat)
    (hr : h.inRange) (hlen : 20 ≤ buf.length) :
    client.deserialize_tcp_header e (client.serialize_tcp_header e h buf) h0 = h := by
  rw [serialize_eq e h buf hlen]
  obtain ⟨sp, dp, sq, ak, d, f, w, c, u⟩ := h
  obtain ⟨h1, h2, h3, h4, -, -, h7, h8, h9⟩ := hr
  simp only at h1 h2 h3 h4 h7 h8 h9
  cases e <;>
    simp [client.deserialize_tcp_header, readBytes, objBytes, leBytes, objVal, leVal] <;>
    omega

/-- Encoding what was decoded from twenty bytes gives the twenty bytes back. -/
theorem serialize_deserialize (e : ByteOrder) (b buf : List Nat) (h0 : tcp_header_t)
    (hb : b.length = 20) (hbytes : isBytes b) (hlen : 20 ≤ buf.length) :
    client.serialize_tcp_header e (client.deserialize_tcp_header e b h0) buf =
      b ++ buf.drop 20 := by
  obtain ⟨a0, a1, a2, a3, a4, a5, a6, a7, a8, a9, a10, a11, a12, a13, a14, a15, a16, a17,
    a18, a19, rfl⟩ := exists_twenty_of_length_eq b hb
  simp only [isBytes, List.mem_cons, List.mem_singleton, forall_eq_or_imp, forall_eq] at hbytes
  obtain ⟨g0, g1, g2, g3, g4, g5, g6, g7, g8, g9, g10, g11, g12, g13, g14, g15, g16, g17,
    g18, g19⟩ := hbytes
  rw [serialize_eq e _ buf hlen, deserialize_eq]
  simp only [objBytes2_objVal, objBytes4_objVal, *]
  simp

theorem deserialize_inRange (e : ByteOrder) (b : List Nat) (h0 : tcp_header_t)
    (hb : b.length = 20) (hbytes : isBytes b) :
    (client.deserialize_tcp_header e b h0).inRange := by
  obtain ⟨a0, a1, a2, a3, a4, a5, a6, a7, a8, a9, a10, a11, a12, a13, a14, a15, a16, a17,
    a18, a19, rfl⟩ := exists_twenty_of_length_eq b hb
  simp only [isBytes, List.mem_cons, List.mem_singleton, forall_eq_or_imp, forall_eq] at hbytes
  obtain ⟨g0, g1, g2, g3, g4, g5, g6, g7, g8, g9, g10, g11, g12, g13, g14, g15, g16, g17,
    g18, g19⟩ := hbytes
  rw [deserialize_eq]
  cases e <;> simp [tcp_header_t.inRange, objVal, leVal] <;> omega

theorem toUint16_of_port (p : Int) (h0 : 0 ≤ p) (h1 : p ≤ 65535) : (toUint16 p : Int) = p := by
  unfold toUint16
  omega

/-! ## The claims about the codec -/

/-- C1: for every header `h` whose fields are values of their C types, and on either host
byte order, `deserialize_tcp_header` applied to the twenty bytes that `serialize_tcp_header`
wrote for `h` yields `h` again, whichever of `client.c` and `server.c` the encoder and the
decoder are taken from (the client connects to 127.0.0.1, so both run on one host). -/
theorem C1_header_roundtrip (e : ByteOrder) (h h0 : tcp_header_t) (buf : List Nat)
    (hr : h.inRange) (hlen : buf.length = 20) :
    client.deserialize_tcp_header e (client.serialize_tcp_header e h buf) h0 = h ∧
    server.deserialize_tcp_header e (server.serialize_tcp_header e h buf) h0 = h ∧
    server.deserialize_tcp_header e (client.serialize_tcp_header e h buf) h0 = h ∧
    client.deserialize_tcp_header e (server.serialize_tcp_header e h buf) h0 = h := by
  have key := deserialize_serialize e h h0 buf hr (by omega)
  simp only [server_serialize_eq_client, server_deserialize_eq_client]
  exact ⟨key, key, key, key⟩

/-- C1 witness: a SYN-ACK header stored on a little-endian host, decoded over stale fields
from a buffer that held other bytes before. -/
theorem C1_header_roundtrip_witness :
    sampleHeader.inRange ∧ staleBuffer.length = 20 ∧
    client.deserialize_tcp_header ByteOrder.little
      (client.serialize_tcp_header ByteOrder.little sampleHeader staleBuffer) staleHeader =
        sampleHeader ∧
    server.deserialize_tcp_header ByteOrder.little
      (server.serialize_tcp_header ByteOrder.little sampleHeader staleBuffer) staleHeader =
        sampleHeader ∧
    server.deserialize_tcp_header ByteOrder.little
      (client.serialize_tcp_header ByteOrder.little sampleHeader staleBuffer) staleHeader =
        sampleHeader ∧
    client.deserialize_tcp_header ByteOrder.little
      (server.serialize_tcp_header ByteOrder.little sampleHeader staleBuffer) staleHeader =
        sampleHeader :=
  ⟨by decide, by decide,
    C1_header_roundtrip ByteOrder.little sampleHeader staleHeader staleBuffer
      (by decide) (by decide)⟩

/-- C2: for ports in 0..65535, 32-bit sequence and acknowledgment numbers and any flags
value `f`, on either host byte order, serializing the header built by `create_tcp_header` changes
exactly the first twenty bytes of the buffer; bytes 0-1 are the source port and bytes 2-3
the destination port, most significant byte first, bytes 4-7 the sequence number and bytes
8-11 the acknowledgment number, most significant byte first, and byte 13 is `f`. The
functions of `server.c` write the same bytes as those of `client.c`. -/
theorem C2_wire_layout (e : ByteOrder) (h0 : tcp_header_t) (src_port dst_port : Int)
    (seq_num ack_num f : Nat) (buf : List Nat)
    (hsp : 0 ≤ src_port ∧ src_port ≤ 65535) (hdp : 0 ≤ dst_port ∧ dst_port ≤ 65535)
    (hseq : seq_num < 4294967296) (hack : ack_num < 4294967296)
    (hlen : 20 ≤ buf.length) :
    (client.serialize_tcp_header e
        (client.create_tcp_header e h0 src_port dst_port seq_num ack_num f) buf).length =
      buf.length ∧
    (client.serialize_tcp_header e
        (client.create_tcp_header e h0 src_port dst_port seq_num ack_num f) buf).drop 20 =
      buf.drop 20 ∧
    ((client.serialize_tcp_header e
        (client.create_tcp_header e h0 src_port dst_port seq_num ack_num f) buf).take 12).map
        Int.ofNat =
      [src_port / 256, src_port % 256, dst_port / 256, dst_port % 256,
       seq_num / 16777216, seq_num / 65536 % 256, seq_num / 256 % 256, seq_num % 256,
       ack_num / 16777216, ack_num / 65536 % 256, ack_num / 256 % 256, ack_num % 256] ∧
    (client.serialize_tcp_header e
        (client.create_tcp_header e h0 src_port dst_port seq_num ack_num f) buf).getD 13 0 =
      f ∧
    server.serialize_tcp_header e
        (server.create_tcp_header e h0 src_port dst_port seq_num ack_num f) buf =
      client.serialize_tcp_header e
        (client.create_tcp_header e h0 src_port dst_port seq_num ack_num f) buf := by
  have hs := toUint16_of_port src_port hsp.1 hsp.2
  have hd := toUint16_of_port dst_port hdp.1 hdp.2
  rw [server_serialize_eq_client, server_create_eq_client,
    serialize_create_eq e h0 src_port dst_port seq_num ack_num f buf hlen]
  refine ⟨?_, ?_, ?_, ?_, rfl⟩
  · simp [wire]; omega
  · simp [wire]
  · simp [wire]
    refine ⟨?_, ?_, ?_, ?_, ?_, ?_⟩ <;> omega
  · simp [wire]

/-- C2 witness: the SYN of a client on port 54321 to port 8080 with sequence number
0x12345678, built on a little-endian host. -/
theorem C2_wire_layout_witness :
    ((0 : Int) ≤ 54321 ∧ (54321 : Int) ≤ 65535) ∧ ((0 : Int) ≤ 8080 ∧ (8080 : Int) ≤ 65535) ∧
    0x12345678 < 4294967296 ∧ 0 < 4294967296 ∧ 20 ≤ staleBuffer.length ∧
    ((client.serialize_tcp_header ByteOrder.little
        (client.create_tcp_header ByteOrder.little staleHeader 54321 8080 0x12345678 0 0x02)
        staleBuffer).take 12).map Int.ofNat =
      [0xD4, 0x31, 0x1F, 0x90, 0x12, 0x34, 0x56, 0x78, 0, 0, 0, 0] :=
  ⟨by decide, by decide, by decide, by decide, by decide,
    (C2_wire_layout ByteOrder.little staleHeader 54321 8080 0x12345678 0 0x02 staleBuffer
      (by decide) (by decide) (by decide) (by decide) (by decide)).2.2.1⟩

/-- C6: for every choice of ports, sequence number, acknowledgment number and flags, on
either host byte order, the header built by `create_tcp_header` and written by
`serialize_tcp_header` has byte 12 equal to 0x50, bytes 14-15 equal to 0x44 0x70 (17520
most significant byte first), bytes 16-17 equal to 0xFF 0xFF and bytes 18-19 equal to
0x00 0x00; the functions of `server.c` write the same bytes. -/
theorem C6_constant_fields (e : ByteOrder) (h0 : tcp_header_t) (src_port dst_port : Int)
    (seq_num ack_num f : Nat) (buf : List Nat) (hlen : 20 ≤ buf.length) :
    (client.serialize_tcp_header e
        (client.create_tcp_header e h0 src_port dst_port seq_num ack_num f) buf).getD 12 0 =
      0x50 ∧
    ((client.serialize_tcp_header e
        (client.create_tcp_header e h0 src_port dst_port seq_num ack_num f) buf).drop 14).take
        6 = [0x44, 0x70, 0xFF, 0xFF, 0x00, 0x00] ∧
    256 * 0x44 + 0x70 = WINDOW_SIZE ∧
    server.serialize_tcp_header e
        (server.create_tcp_header e h0 src_port dst_port seq_num ack_num f) buf =
      client.serialize_tcp_header e
        (client.create_tcp_header e h0 src_port dst_port seq_num ack_num f) buf := by
  rw [server_serialize_eq_client, server_create_eq_client,
    serialize_create_eq e h0 src_port dst_port seq_num ack_num f buf hlen]
  refine ⟨?_, ?_, ?_, rfl⟩
  · simp [wire]
  · simp [wire]
  · decide

/-- C6 witness: a header built on a big-endian host from a negative port, an oversized
port and arbitrary numbers still carries the constant bytes. -/
theorem C6_constant_fields_witness :
    20 ≤ staleBuffer.length ∧
    (client.serialize_tcp_header ByteOrder.big
        (client.create_tcp_header ByteOrder.big staleHeader (-1) 70000 0xFFFFFFFF 7 0xFF)
        staleBuffer).getD 12 0 = 0x50 ∧
    ((client.serialize_tcp_header ByteOrder.big
        (client.create_tcp_header ByteOrder.big staleHeader (-1) 70000 0xFFFFFFFF 7 0xFF)
        staleBuffer).drop 14).take 6 = [0x44, 0x70, 0xFF, 0xFF, 0x00, 0x00] :=
  ⟨by decide,
    (C6_constant_fields ByteOrder.big staleHeader (-1) 70000 0xFFFFFFFF 7 0xFF staleBuffer
      (by decide)).1,
    (C6_constant_fields ByteOrder.big staleHeader (-1) 70000 0xFFFFFFFF 7 0xFF staleBuffer
      (by decide)).2.1⟩

/-- C9: for every buffer `b` of twenty bytes, on either host byte order, the header that
`deserialize_tcp_header` reads from `b` has every field in the range of its type, and
`serialize_tcp_header` applied to it writes back exactly `b`, whichever file the two
functions are taken from; and two headers that serialize to the same twenty bytes are
equal. With the forward round trip this makes the codec a bijection between headers and
twenty-byte buffers. -/
theorem C9_reverse_roundtrip (e : ByteOrder) (b buf : List Nat) (h0 : tcp_header_t)
    (hb : b.length = 20) (hbytes : isBytes b) (hlen : buf.length = 20) :
    (client.deserialize_tcp_header e b h0).inRange ∧
    client.serialize_tcp_header e (client.deserialize_tcp_header e b h0) buf = b ∧
    server.serialize_tcp_header e (server.deserialize_tcp_header e b h0) buf = b ∧
    server.serialize_tcp_header e (client.deserialize_tcp_header e b h0) buf = b ∧
    client.serialize_tcp_header e (server.deserialize_tcp_header e b h0) buf = b ∧
    (∀ h h' : tcp_header_t, h.inRange → h'.inRange →
      client.serialize_tcp_header e h buf = client.serialize_tcp_header e h' buf → h = h') := by
  have key : client.serialize_tcp_header e (client.deserialize_tcp_header e b h0) buf = b := by
    rw [serialize_deserialize e b buf h0 hb hbytes (by omega), List.drop_eq_nil_of_le (by omega)]
    simp
  simp only [server_serialize_eq_client, server_deserialize_eq_client]
  refine ⟨deserialize_inRange e b h0 hb hbytes, key, key, key, key, ?_⟩
  intro h h' hr hr' heq
  rw [← deserialize_serialize e h h0 buf hr (by omega),
    ← deserialize_serialize e h' h0 buf hr' (by omega), heq]

/-- C9 witness: the SYN-ACK bytes, decoded and re-encoded on a big-endian host into a
buffer that held other bytes. -/
theorem C9_reverse_roundtrip_witness :
    sampleSynAck.length = 20 ∧ isBytes sampleSynAck ∧ staleBuffer.length = 20 ∧
    client.serialize_tcp_header ByteOrder.big
      (client.deserialize_tcp_header ByteOrder.big sampleSynAck staleHeader) staleBuffer =
        sampleSynAck :=
  ⟨by decide, by decide, by decide,
    (C9_reverse_roundtrip ByteOrder.big sampleSynAck staleBuffer staleHeader
      (by decide) (by decide) (by decide)).2.1⟩

/-! ## The steps of the two scripts, field by field -/

theorem serialize_create_eq_wire (e : ByteOrder) (h : tcp_header_t) (src_port dst_port : Int)
    (seq_num ack_num flags : Nat) (buf : List Nat) (hlen : buf.length = 20) :
    client.serialize_tcp_header e
        (client.create_tcp_header e h src_port dst_port seq_num ack_num flags) buf =
      wire src_port dst_port seq_num ack_num flags := by
  rw [serialize_create_eq e h src_port dst_port seq_num ack_num flags buf (by omega),
    List.drop_eq_nil_of_le (by omega)]
  simp

theorem client_step1_buffer (e : ByteOrder) (st : client.State)
    (hlen : st.header_buffer.length = 20) :
    (client.main_step1 e st).header_buffer =
      wire st.src_port st.port st.client_seq_num 0 FLAG_SYN := by
  simp only [client.main_step1]
  exact serialize_create_eq_wire e _ _ _ _ _ _ _ hlen

theorem client_step1_sent (e : ByteOrder) (st : client.State)
    (hlen : st.header_buffer.length = 20) :
    (client.main_step1 e st).sent =
      st.sent ++ [wire st.src_port st.port st.client_seq_num 0 FLAG_SYN] := by
  simp only [client.main_step1]
  rw [serialize_create_eq_wire e _ _ _ _ _ _ _ hlen, send_eq _ (wire_length _ _ _ _ _)]

theorem client_step2_buffer (e : ByteOrder) (incoming : List Nat) (st : client.State)
    (hi : incoming.length = 20) (hlen : st.header_buffer.length = 20) :
    (client.main_step2 e incoming st).header_buffer = incoming := by
  simp only [client.main_step2]
  exact recv_eq incoming _ hi hlen

theorem client_step2_header (e : ByteOrder) (incoming : List Nat) (st : client.State)
    (hi : incoming.length = 20) (hlen : st.header_buffer.length = 20) :
    (client.main_step2 e incoming st).header =
      client.deserialize_tcp_header e incoming st.header := by
  simp only [client.main_step2]
  rw [recv_eq incoming _ hi hlen]

theorem client_step2_seq (e : ByteOrder) (incoming : List Nat) (st : client.State)
    (hi : incoming.length = 20) (hlen : st.header_buffer.length = 20) :
    (client.main_step2 e incoming st).server_seq_num =
      ntohl e (objVal e (readBytes incoming 4 4)) := by
  simp only [client.main_step2]
  rw [recv_eq incoming _ hi hlen]
  rfl

theorem client_step3_sent (e : ByteOrder) (st : client.State)
    (hlen : st.header_buffer.length = 20) :
    (client.main_step3 e st).sent =
      st.sent ++ [wire st.src_port st.port (add32 st.client_seq_num 1)
        (add32 st.server_seq_num 1) FLAG_ACK] := by
  simp only [client.main_step3]
  rw [serialize_create_eq_wire e _ _ _ _ _ _ _ hlen, send_eq _ (wire_length _ _ _ _ _)]

theorem client_step23_sent (e : ByteOrder) (incoming : List Nat) (st : client.State)
    (hi : incoming.length = 20) (hlen : st.header_buffer.length = 20) :
    (client.main_step23 e incoming st).sent =
      st.sent ++ [wire st.src_port st.port (add32 st.client_seq_num 1)
        (add32 (ntohl e (objVal e (readBytes incoming 4 4))) 1) FLAG_ACK] := by
  unfold client.main_step23
  rw [client_step3_sent e _ (by rw [client_step2_buffer e incoming st hi hlen]; exact hi),
    client_step2_seq e incoming st hi hlen]
  rfl

theorem server_step1_buffer (e : ByteOrder) (incoming : List Nat) (st : server.State)
    (hi : incoming.length = 20) (hlen : st.header_buffer.length = 20) :
    (server.main_step1 e incoming st).header_buffer = incoming := by
  simp only [server.main_step1]
  exact recv_eq incoming _ hi hlen

theorem server_step1_seq (e : ByteOrder) (incoming : List Nat) (st : server.State)
    (hi : incoming.length = 20) (hlen : st.header_buffer.length = 20) :
    (server.main_step1 e incoming st).client_seq_num =
      ntohl e (objVal e (readBytes incoming 4 4)) := by
  simp only [server.main_step1]
  rw [recv_eq incoming _ hi hlen]
  rfl

theorem server_step1_port (e : ByteOrder) (incoming : List Nat) (st : server.State)
    (hi : incoming.length = 20) (hlen : st.header_buffer.length = 20) :
    (server.main_step1 e incoming st).header.source_port =
      objVal e (readBytes incoming 0 2) := by
  simp only [server.main_step1]
  rw [recv_eq incoming _ hi hlen]
  rfl

theorem server_step2_sent (e : ByteOrder) (st : server.State)
    (hlen : st.header_buffer.length = 20) :
    (server.main_step2 e st).sent =
      st.sent ++ [wire st.port (ntohs e st.header.source_port) st.server_seq_num
        (add32 st.client_seq_num 1) FLAG_SYNACK] := by
  simp only [server.main_step2]
  rw [server_serialize_eq_client, server_create_eq_client,
    serialize_create_eq_wire e _ _ _ _ _ _ _ hlen, send_eq _ (wire_length _ _ _ _ _)]

theorem server_step12_sent (e : ByteOrder) (incoming : List Nat) (st : server.State)
    (hi : incoming.length = 20) (hlen : st.header_buffer.length = 20) :
    (server.main_step12 e incoming st).sent =
      st.sent ++ [wire st.port (ntohs e (objVal e (readBytes incoming 0 2))) st.server_seq_num
        (add32 (ntohl e (objVal e (readBytes incoming 4 4))) 1) FLAG_SYNACK] := by
  unfold server.main_step12
  rw [server_step2_sent e _ (by rw [server_step1_buffer e incoming st hi hlen]; exact hi),
    server_step1_seq e incoming st hi hlen, server_step1_port e incoming st hi hlen]
  rfl

theorem server_step12_buffer (e : ByteOrder) (incoming : List Nat) (st : server.State)
    (hi : incoming.length = 20) (hlen : st.header_buffer.length = 20) :
    (server.main_step12 e incoming st).header_buffer.length = 20 := by
  unfold server.main_step12
  simp only [server.main_step2]
  rw [server_serialize_eq_client, server_create_eq_client,
    serialize_create_eq_wire e _ _ _ _ _ _ _
      (by rw [server_step1_buffer e incoming st hi hlen]; exact hi)]
  rfl

/-- The value that `ntohs` gives for the field read from the first two bytes of a byte
buffer is their big-endian value. -/
theorem ntohs_read (e : ByteOrder) (b : List Nat) (hb : b.length = 20) (hbytes : isBytes b) :
    ntohs e (objVal e (readBytes b 0 2)) = be16 b 0 := by
  obtain ⟨a0, a1, a2, a3, a4, a5, a6, a7, a8, a9, a10, a11, a12, a13, a14, a15, a16, a17,
    a18, a19, rfl⟩ := exists_twenty_of_length_eq b hb
  simp only [isBytes, List.mem_cons, List.mem_singleton, forall_eq_or_imp, forall_eq] at hbytes
  simp [readBytes, be16, ntohs_objVal e a0 a1 hbytes.1 hbytes.2.1]

theorem ntohl_read_seq (e : ByteOrder) (b : List Nat) (hb : b.length = 20)
    (hbytes : isBytes b) :
    ntohl e (objVal e (readBytes b 4 4)) = be32 b 4 := by
  obtain ⟨a0, a1, a2, a3, a4, a5, a6, a7, a8, a9, a10, a11, a12, a13, a14, a15, a16, a17,
    a18, a19, rfl⟩ := exists_twenty_of_length_eq b hb
  simp only [isBytes, List.mem_cons, List.mem_singleton, forall_eq_or_imp, forall_eq] at hbytes
  obtain ⟨-, -, -, -, g4, g5, g6, g7, -⟩ := hbytes
  simp [readBytes, be32, ntohl_objVal e a4 a5 a6 a7 g4 g5 g6 g7]

theorem ntohl_read_ack (e : ByteOrder) (b : List Nat) (hb : b.length = 20)
    (hbytes : isBytes b) :
    ntohl e (objVal e (readBytes b 8 4)) = be32 b 8 := by
  obtain ⟨a0, a1, a2, a3, a4, a5, a6, a7, a8, a9, a10, a11, a12, a13, a14, a15, a16, a17,
    a18, a19, rfl⟩ := exists_twenty_of_length_eq b hb
  simp only [isBytes, List.mem_cons, List.mem_singleton, forall_eq_or_imp, forall_eq] at hbytes
  obtain ⟨-, -, -, -, -, -, -, -, g8, g9, g10, g11, -⟩ := hbytes
  simp [readBytes, be32, ntohl_objVal e a8 a9 a10 a11 g8 g9 g10 g11]

/-! ### Reading the wire bytes back -/

theorem wire_isBytes (src_port dst_port : Int) (seq_num ack_num flags : Nat)
    (hf : flags < 256) : isBytes (wire src_port dst_port seq_num ack_num flags) := by
  simp only [isBytes, wire, List.mem_cons, List.mem_singleton, forall_eq_or_imp, forall_eq]
  simp
  refine ⟨?_, ?_, ?_, ?_, ?_, ?_, ?_, ?_, ?_, ?_, ?_, ?_, ?_⟩ <;> omega

theorem wire_flags (src_port dst_port : Int) (seq_num ack_num flags : Nat) :
    (wire src_port dst_port seq_num ack_num flags).getD 13 0 = flags := by
  simp [wire]

theorem wire_src (src_port dst_port : Int) (seq_num ack_num flags : Nat) :
    be16 (wire src_port dst_port seq_num ack_num flags) 0 = toUint16 src_port := by
  have : toUint16 src_port < 65536 := by unfold toUint16; omega
  simp [wire, be16]; omega

theorem wire_dst (src_port dst_port : Int) (seq_num ack_num flags : Nat) :
    be16 (wire src_port dst_port seq_num ack_num flags) 2 = toUint16 dst_port := by
  have : toUint16 dst_port < 65536 := by unfold toUint16; omega
  simp [wire, be16]; omega

theorem wire_seq (src_port dst_port : Int) (seq_num ack_num flags : Nat)
    (h : seq_num < 4294967296) :
    be32 (wire src_port dst_port seq_num ack_num flags) 4 = seq_num := by
  simp [wire, be32]; omega

theorem wire_ack (src_port dst_port : Int) (seq_num ack_num flags : Nat)
    (h : ack_num < 4294967296) :
    be32 (wire src_port dst_port seq_num ack_num flags) 8 = ack_num := by
  simp [wire, be32]; omega

theorem add32_lt (a b : Nat) : add32 a b < 4294967296 := by
  unfold add32; omega

theorem toUint16_ofNat (n : Nat) (h : n < 65536) : toUint16 (n : Int) = n := by
  unfold toUint16; omega

theorem be16_lt (b : List Nat) (i : Nat) (hbytes : isBytes b) : be16 b i < 65536 := by
  have h1 : b.getD i 0 < 256 := by
    rw [List.getD_eq_getElem?_getD]
    cases h : b[i]? with
    | none => simp
    | some x => simpa using hbytes x (List.getElem?_mem h)
  have h2 : b.getD (i + 1) 0 < 256 := by
    rw [List.getD_eq_getElem?_getD]
    cases h : b[i + 1]? with
    | none => simp
    | some x => simpa using hbytes x (List.getElem?_mem h)
  unfold be16; omega

/-! ## The claims about the handshake scripts -/

/-- C5: for every client initial sequence number `c`, local source port and server port
(both in 0..65535), on either host byte order, step 1 of the client passes to `send` one
message of twenty bytes whose flags byte is exactly 0x02, whose sequence number is `c`,
whose acknowledgment number is 0, whose source port is the local port and whose destination
port is the server port (all read from the wire most significant byte first). -/
theorem C5_client_syn (e : ByteOrder) (st : client.State)
    (hlen : st.header_buffer.length = 20)
    (hsp : 0 ≤ st.src_port ∧ st.src_port ≤ 65535) (hp : 0 ≤ st.port ∧ st.port ≤ 65535)
    (hc : st.client_seq_num < 4294967296) :
    ∃ msg : List Nat,
      (client.main_step1 e st).sent = st.sent ++ [msg] ∧ msg.length = 20 ∧ isBytes msg ∧
      msg.getD 13 0 = 0x02 ∧ be32 msg 4 = st.client_seq_num ∧ be32 msg 8 = 0 ∧
      (be16 msg 0 : Int) = st.src_port ∧ (be16 msg 2 : Int) = st.port := by
  refine ⟨_, client_step1_sent e st hlen, wire_length _ _ _ _ _,
    wire_isBytes _ _ _ _ _ (by decide), wire_flags _ _ _ _ _, wire_seq _ _ _ _ _ hc,
    wire_ack _ _ _ _ _ (by decide), ?_, ?_⟩
  · rw [wire_src]; exact toUint16_of_port _ hsp.1 hsp.2
  · rw [wire_dst]; exact toUint16_of_port _ hp.1 hp.2

/-- C5 witness: the sample client on a little-endian host sends exactly the sample SYN. -/
theorem C5_client_syn_witness :
    sampleClient.header_buffer.length = 20 ∧
    ((0 : Int) ≤ sampleClient.src_port ∧ sampleClient.src_port ≤ 65535) ∧
    ((0 : Int) ≤ sampleClient.port ∧ sampleClient.port ≤ 65535) ∧
    sampleClient.client_seq_num < 4294967296 ∧
    ∃ msg : List Nat,
      (client.main_step1 ByteOrder.little sampleClient).sent = sampleClient.sent ++ [msg] ∧
      msg.length = 20 ∧ isBytes msg ∧
      msg.getD 13 0 = 0x02 ∧ be32 msg 4 = sampleClient.client_seq_num ∧ be32 msg 8 = 0 ∧
      (be16 msg 0 : Int) = sampleClient.src_port ∧ (be16 msg 2 : Int) = sampleClient.port :=
  ⟨by decide, by decide, by decide, by decide,
    C5_client_syn ByteOrder.little sampleClient (by decide) (by decide) (by decide)
      (by decide)⟩

/-- C3: for every buffer of twenty bytes received in step 1, every listening port in
0..65535 and every 32-bit server initial sequence number `s`, on either host byte order,
steps 1-2 of the server pass to `send` one message of twenty bytes whose flags byte is
exactly 0x12, whose sequence number is `s`, whose acknowledgment number is the received
sequence number (bytes 4-7, most significant first) plus one modulo 2^32, whose source port
is the listening port and whose destination port is the two-byte value of received bytes
0-1. -/
theorem C3_server_synack (e : ByteOrder) (incoming : List Nat) (st : server.State)
    (hi : incoming.length = 20) (hbytes : isBytes incoming)
    (hlen : st.header_buffer.length = 20)
    (hp : 0 ≤ st.port ∧ st.port ≤ 65535) (hs : st.server_seq_num < 4294967296) :
    ∃ msg : List Nat,
      (server.main_step12 e incoming st).sent = st.sent ++ [msg] ∧ msg.length = 20 ∧
      isBytes msg ∧ msg.getD 13 0 = 0x12 ∧ be32 msg 4 = st.server_seq_num ∧
      be32 msg 8 = (be32 incoming 4 + 1) % 4294967296 ∧
      (be16 msg 0 : Int) = st.port ∧ be16 msg 2 = be16 incoming 0 := by
  refine ⟨_, server_step12_sent e incoming st hi hlen, wire_length _ _ _ _ _,
    wire_isBytes _ _ _ _ _ (by decide), wire_flags _ _ _ _ _, wire_seq _ _ _ _ _ hs, ?_, ?_, ?_⟩
  · rw [wire_ack _ _ _ _ _ (add32_lt _ _), ntohl_read_seq e incoming hi hbytes]
    rfl
  · rw [wire_src]; exact toUint16_of_port _ hp.1 hp.2
  · rw [wire_dst, ntohs_read e incoming hi hbytes]
    exact toUint16_ofNat _ (be16_lt _ _ hbytes)

/-- C3 witness: the sample server on a big-endian host, receiving the sample SYN. -/
theorem C3_server_synack_witness :
    sampleSyn.length = 20 ∧ isBytes sampleSyn ∧ sampleServer.header_buffer.length = 20 ∧
    ((0 : Int) ≤ sampleServer.port ∧ sampleServer.port ≤ 65535) ∧
    sampleServer.server_seq_num < 4294967296 ∧
    ∃ msg : List Nat,
      (server.main_step12 ByteOrder.big sampleSyn sampleServer).sent =
        sampleServer.sent ++ [msg] ∧ msg.length = 20 ∧
      isBytes msg ∧ msg.getD 13 0 = 0x12 ∧ be32 msg 4 = sampleServer.server_seq_num ∧
      be32 msg 8 = (be32 sampleSyn 4 + 1) % 4294967296 ∧
      (be16 msg 0 : Int) = sampleServer.port ∧ be16 msg 2 = be16 sampleSyn 0 :=
  ⟨by decide, by decide, by decide, by decide, by decide,
    C3_server_synack ByteOrder.big sampleSyn sampleServer (by decide) (by decide) (by decide)
      (by decide) (by decide)⟩

/-- C4: for every client initial sequence number `c` and every buffer of twenty bytes
received in step 2, on either host byte order, steps 2-3 of the client pass to `send` one
message of twenty bytes whose flags byte is exactly 0x10, whose sequence number is
`(c + 1) mod 2^32` and whose acknowledgment number is `(s + 1) mod 2^32`, where `s` is the
value of received bytes 4-7, most significant first; when `s` is 0xFFFFFFFF the
acknowledgment number is 0. -/
theorem C4_client_ack (e : ByteOrder) (incoming : List Nat) (st : client.State)
    (hi : incoming.length = 20) (hbytes : isBytes incoming)
    (hlen : st.header_buffer.length = 20) :
    ∃ msg : List Nat,
      (client.main_step23 e incoming st).sent = st.sent ++ [msg] ∧ msg.length = 20 ∧
      isBytes msg ∧ msg.getD 13 0 = 0x10 ∧
      be32 msg 4 = (st.client_seq_num + 1) % 4294967296 ∧
      be32 msg 8 = (be32 incoming 4 + 1) % 4294967296 ∧
      (be32 incoming 4 = 0xFFFFFFFF → be32 msg 8 = 0) := by
  have hack : be32 (wire st.src_port st.port (add32 st.client_seq_num 1)
      (add32 (ntohl e (objVal e (readBytes incoming 4 4))) 1) FLAG_ACK) 8 =
      (be32 incoming 4 + 1) % 4294967296 := by
    rw [wire_ack _ _ _ _ _ (add32_lt _ _), ntohl_read_seq e incoming hi hbytes]
    rfl
  refine ⟨_, client_step23_sent e incoming st hi hlen, wire_length _ _ _ _ _,
    wire_isBytes _ _ _ _ _ (by decide), wire_flags _ _ _ _ _,
    wire_seq _ _ _ _ _ (add32_lt _ _), hack, ?_⟩
  intro hmax
  rw [hack, hmax]

/-- C4 witness: the sample client after its step 1, on a little-endian host, receiving the
sample SYN-ACK, whose sequence number is 0xFFFFFFFF. -/
theorem C4_client_ack_witness :
    sampleSynAck.length = 20 ∧ isBytes sampleSynAck ∧
    (client.main_step1 ByteOrder.little sampleClient).header_buffer.length = 20 ∧
    be32 sampleSynAck 4 = 0xFFFFFFFF ∧
    ∃ msg : List Nat,
      (client.main_step23 ByteOrder.little sampleSynAck
          (client.main_step1 ByteOrder.little sampleClient)).sent =
        (client.main_step1 ByteOrder.little sampleClient).sent ++ [msg] ∧ msg.length = 20 ∧
      isBytes msg ∧ msg.getD 13 0 = 0x10 ∧
      be32 msg 4 = ((client.main_step1 ByteOrder.little sampleClient).client_seq_num + 1) %
        4294967296 ∧
      be32 msg 8 = (be32 sampleSynAck 4 + 1) % 4294967296 ∧
      (be32 sampleSynAck 4 = 0xFFFFFFFF → be32 msg 8 = 0) :=
  ⟨by decide, by decide, by decide, by decide,
    C4_client_ack ByteOrder.little sampleSynAck (client.main_step1 ByteOrder.little sampleClient)
      (by decide) (by decide) (by decide)⟩

theorem lastSent_append (l : List (List Nat)) (m : List Nat) : lastSent (l ++ [m]) = m := by
  simp [lastSent]

theorem server_step3_buffer (e : ByteOrder) (incoming : List Nat) (st : server.State)
    (hi : incoming.length = 20) (hlen : st.header_buffer.length = 20) :
    (server.main_step3 e incoming st).header_buffer = incoming := by
  simp only [server.main_step3]
  exact recv_eq incoming _ hi hlen

theorem server_step3_header (e : ByteOrder) (incoming : List Nat) (st : server.State)
    (hi : incoming.length = 20) (hlen : st.header_buffer.length = 20) :
    (server.main_step3 e incoming st).header =
      client.deserialize_tcp_header e incoming st.header := by
  simp only [server.main_step3]
  rw [recv_eq incoming _ hi hlen]
  rfl

theorem server_step3_sent (e : ByteOrder) (incoming : List Nat) (st : server.State) :
    (server.main_step3 e incoming st).sent = st.sent := rfl

theorem deserialize_seq (e : ByteOrder) (b : List Nat) (h0 : tcp_header_t) :
    (client.deserialize_tcp_header e b h0).seq_num = objVal e (readBytes b 4 4) := rfl

theorem deserialize_ack (e : ByteOrder) (b : List Nat) (h0 : tcp_header_t) :
    (client.deserialize_tcp_header e b h0).ack_num = objVal e (readBytes b 8 4) := rfl

/-- The messages exchanged in a run of the two scripts against each other. -/
theorem handshake_messages (ec es : ByteOrder) (c : client.State) (s : server.State)
    (hc : c.header_buffer.length = 20) (hs : s.header_buffer.length = 20)
    (hcs : c.client_seq_num < 4294967296) (hss : s.server_seq_num < 4294967296) :
    (handshake ec es c s).1.sent =
      c.sent ++ [wire c.src_port c.port c.client_seq_num 0 FLAG_SYN,
        wire c.src_port c.port (add32 c.client_seq_num 1) (add32 s.server_seq_num 1)
          FLAG_ACK] ∧
    (handshake ec es c s).2.sent =
      s.sent ++ [wire s.port (toUint16 c.src_port : Int) s.server_seq_num
        (add32 c.client_seq_num 1) FLAG_SYNACK] ∧
    (handshake ec es c s).2.header_buffer =
      wire c.src_port c.port (add32 c.client_seq_num 1) (add32 s.server_seq_num 1) FLAG_ACK ∧
    (handshake ec es c s).2.header.seq_num =
      objVal es (readBytes (wire c.src_port c.port (add32 c.client_seq_num 1)
        (add32 s.server_seq_num 1) FLAG_ACK) 4 4) ∧
    (handshake ec es c s).2.header.ack_num =
      objVal es (readBytes (wire c.src_port c.port (add32 c.client_seq_num 1)
        (add32 s.server_seq_num 1) FLAG_ACK) 8 4) := by
  have hsynB := wire_isBytes c.src_port c.port c.client_seq_num 0 FLAG_SYN (by decide)
  have hsynL := wire_length c.src_port c.port c.client_seq_num 0 FLAG_SYN
  have h1 := client_step1_sent ec c hc
  have h1b : (client.main_step1 ec c).header_buffer.length = 20 := by
    rw [client_step1_buffer ec c hc]; rfl
  have h2 := server_step12_sent es (wire c.src_port c.port c.client_seq_num 0 FLAG_SYN) s hsynL hs
  rw [ntohs_read es _ hsynL hsynB, ntohl_read_seq es _ hsynL hsynB, wire_src,
    wire_seq _ _ _ _ _ hcs] at h2
  have h2b := server_step12_buffer es (wire c.src_port c.port c.client_seq_num 0 FLAG_SYN) s
    hsynL hs
  have hsaB := wire_isBytes s.port (toUint16 c.src_port : Int) s.server_seq_num
    (add32 c.client_seq_num 1) FLAG_SYNACK (by decide)
  have hsaL := wire_length s.port (toUint16 c.src_port : Int) s.server_seq_num
    (add32 c.client_seq_num 1) FLAG_SYNACK
  have h3 := client_step23_sent ec (wire s.port (toUint16 c.src_port : Int) s.server_seq_num
    (add32 c.client_seq_num 1) FLAG_SYNACK) (client.main_step1 ec c) hsaL h1b
  rw [ntohl_read_seq ec _ hsaL hsaB, wire_seq _ _ _ _ _ hss, h1] at h3
  have h3' : (client.main_step23 ec (wire s.port (toUint16 c.src_port : Int) s.server_seq_num
      (add32 c.client_seq_num 1) FLAG_SYNACK) (client.main_step1 ec c)).sent =
      c.sent ++ [wire c.src_port c.port c.client_seq_num 0 FLAG_SYN] ++
        [wire c.src_port c.port (add32 c.client_seq_num 1) (add32 s.server_seq_num 1)
          FLAG_ACK] := h3
  have hackL := wire_length c.src_port c.port (add32 c.client_seq_num 1)
    (add32 s.server_seq_num 1) FLAG_ACK
  simp only [handshake]
  rw [h1, lastSent_append, h2, lastSent_append, h3', lastSent_append,
    server_step3_sent, h2, server_step3_buffer es _ _ hackL h2b,
    server_step3_header es _ _ hackL h2b]
  refine ⟨by simp, rfl, rfl, rfl, rfl⟩

/-- C10: when the client's steps and the server's steps run against each other over a
channel that delivers each message unchanged, on hosts of any byte orders, for every 32-bit
client and server initial sequence numbers `c` and `s`, client source port and port `p`
(both in 0..65535): the client sends a SYN and an ACK and the server a SYN-ACK; the SYN-ACK
acknowledges `(c + 1) mod 2^32` and carries the SYN's ports swapped; the final ACK, which is
what the server's buffer holds at the end, has sequence number `(c + 1) mod 2^32`, equal to
the acknowledgment number of the SYN-ACK, and acknowledgment number `(s + 1) mod 2^32`, and
the server decodes these two numbers from it. -/
theorem C10_handshake_consistency (ec es : ByteOrder) (c : client.State) (s : server.State)
    (hc : c.header_buffer.length = 20) (hs : s.header_buffer.length = 20)
    (hsp : 0 ≤ c.src_port ∧ c.src_port ≤ 65535) (hp : 0 ≤ c.port ∧ c.port ≤ 65535)
    (hport : s.port = c.port)
    (hcs : c.client_seq_num < 4294967296) (hss : s.server_seq_num < 4294967296) :
    ∃ syn synack ack : List Nat,
      (handshake ec es c s).1.sent = c.sent ++ [syn, ack] ∧
      (handshake ec es c s).2.sent = s.sent ++ [synack] ∧
      (be16 syn 0 : Int) = c.src_port ∧ (be16 syn 2 : Int) = c.port ∧
      (be16 synack 0 : Int) = c.port ∧ (be16 synack 2 : Int) = c.src_port ∧
      be32 synack 8 = (c.client_seq_num + 1) % 4294967296 ∧
      (handshake ec es c s).2.header_buffer = ack ∧
      be32 ack 4 = (c.client_seq_num + 1) % 4294967296 ∧
      be32 ack 4 = be32 synack 8 ∧
      be32 ack 8 = (s.server_seq_num + 1) % 4294967296 ∧
      ntohl es (handshake ec es c s).2.header.seq_num =
        (c.client_seq_num + 1) % 4294967296 ∧
      ntohl es (handshake ec es c s).2.header.ack_num =
        (s.server_seq_num + 1) % 4294967296 := by
  obtain ⟨m1, m2, m3, m4, m5⟩ := handshake_messages ec es c s hc hs hcs hss
  have hackB := wire_isBytes c.src_port c.port (add32 c.client_seq_num 1)
    (add32 s.server_seq_num 1) FLAG_ACK (by decide)
  have hackL := wire_length c.src_port c.port (add32 c.client_seq_num 1)
    (add32 s.server_seq_num 1) FLAG_ACK
  have hsrc := toUint16_of_port _ hsp.1 hsp.2
  have hdst := toUint16_of_port _ hp.1 hp.2
  have hseq := wire_seq c.src_port c.port (add32 c.client_seq_num 1)
    (add32 s.server_seq_num 1) FLAG_ACK (add32_lt _ _)
  have hack := wire_ack c.src_port c.port (add32 c.client_seq_num 1)
    (add32 s.server_seq_num 1) FLAG_ACK (add32_lt _ _)
  have hsa := wire_ack s.port (toUint16 c.src_port : Int) s.server_seq_num
    (add32 c.client_seq_num 1) FLAG_SYNACK (add32_lt _ _)
  refine ⟨_, _, _, m1, m2, ?_, ?_, ?_, ?_, ?_, m3, ?_, ?_, ?_, ?_, ?_⟩
  · rw [wire_src]; exact hsrc
  · rw [wire_dst]; exact hdst
  · rw [wire_src, hport]; exact hdst
  · rw [wire_dst, toUint16_ofNat _ (by unfold toUint16; omega)]; exact hsrc
  · rw [hsa]; rfl
  · rw [hseq]; rfl
  · rw [hseq, hsa]
  · rw [hack]; rfl
  · rw [m4, ntohl_read_seq es _ hackL hackB, hseq]; rfl
  · rw [m5, ntohl_read_ack es _ hackL hackB, hack]; rfl

/-- C10 witness: the sample client on a little-endian host against the sample server on a
big-endian host, both with initial sequence number 0xFFFFFFFF, so that both incremented
numbers wrap to 0. -/
theorem C10_handshake_consistency_witness :
    (sampleClient.header_buffer.length = 20 ∧ sampleServer.header_buffer.length = 20 ∧
      ((0 : Int) ≤ sampleClient.src_port ∧ sampleClient.src_port ≤ 65535) ∧
      ((0 : Int) ≤ sampleClient.port ∧ sampleClient.port ≤ 65535) ∧
      sampleServer.port = sampleClient.port ∧
      sampleClient.client_seq_num < 4294967296 ∧ sampleServer.server_seq_num < 4294967296) ∧
    ∃ syn synack ack : List Nat,
      (handshake ByteOrder.little ByteOrder.big sampleClient sampleServer).1.sent =
        sampleClient.sent ++ [syn, ack] ∧
      (handshake ByteOrder.little ByteOrder.big sampleClient sampleServer).2.sent =
        sampleServer.sent ++ [synack] ∧
      be32 synack 8 = 0 ∧ be32 ack 4 = 0 ∧ be32 ack 8 = 0 := by
  refine ⟨by decide, ?_⟩
  obtain ⟨syn, synack, ack, h1, h2, -, -, -, -, h3, -, h4, -, h5, -, -⟩ :=
    C10_handshake_consistency ByteOrder.little ByteOrder.big sampleClient sampleServer
      (by decide) (by decide) (by decide) (by decide) (by decide) (by decide) (by decide)
  exact ⟨syn, synack, ack, h1, h2, h3.trans (by decide), h4.trans (by decide),
    h5.trans (by decide)⟩

theorem readBytes_congr_ports (b b' : List Nat) (hb : b.length = 20) (hb' : b'.length = 20)
    (h0 : b.getD 0 0 = b'.getD 0 0) (h1 : b.getD 1 0 = b'.getD 1 0) :
    readBytes b 0 2 = readBytes b' 0 2 := by
  obtain ⟨a0, a1, a2, a3, a4, a5, a6, a7, a8, a9, a10, a11, a12, a13, a14, a15, a16, a17,
    a18, a19, rfl⟩ := exists_twenty_of_length_eq b hb
  obtain ⟨c0, c1, c2, c3, c4, c5, c6, c7, c8, c9, c10, c11, c12, c13, c14, c15, c16, c17,
    c18, c19, rfl⟩ := exists_twenty_of_length_eq b' hb'
  simp at h0 h1
  simp [readBytes, h0, h1]

theorem readBytes_congr_seq (b b' : List Nat) (hb : b.length = 20) (hb' : b'.length = 20)
    (h4 : b.getD 4 0 = b'.getD 4 0) (h5 : b.getD 5 0 = b'.getD 5 0)
    (h6 : b.getD 6 0 = b'.getD 6 0) (h7 : b.getD 7 0 = b'.getD 7 0) :
    readBytes b 4 4 = readBytes b' 4 4 := by
  obtain ⟨a0, a1, a2, a3, a4, a5, a6, a7, a8, a9, a10, a11, a12, a13, a14, a15, a16, a17,
    a18, a19, rfl⟩ := exists_twenty_of_length_eq b hb
  obtain ⟨c0, c1, c2, c3, c4, c5, c6, c7, c8, c9, c10, c11, c12, c13, c14, c15, c16, c17,
    c18, c19, rfl⟩ := exists_twenty_of_length_eq b' hb'
  simp at h4 h5 h6 h7
  simp [readBytes, h4, h5, h6, h7]

theorem getD_set_flags (b : List Nat) (f i : Nat) (hi : i ≠ 13) :
    (b.set 13 f).getD i 0 = b.getD i 0 := by
  simp [List.getD_eq_getElem?_getD, List.getElem?_set, Ne.symm hi]

/-- C7: the message sent after a receive does not depend on the flags of the received
header. On either host byte order and from any state, steps 1-2 of the server append to the
messages sent exactly one SYN-ACK of twenty bytes (flags byte 0x12), which is the same for
two received buffers of twenty bytes that agree on bytes 0-1 and 4-7, and steps 2-3 of the
client append exactly one ACK of twenty bytes (flags byte 0x10), which is the same for two
received buffers that agree on bytes 4-7; in particular replacing byte 13 of the received
buffer by any value leaves the message sent unchanged. Whatever is received, the whole
server script sends that SYN-ACK and the whole client script sends its SYN and that ACK,
and the log of both scripts ends with the line reporting that the handshake completed, on
the console and in the file. -/
theorem C7_no_flag_validation (e : ByteOrder) (s : server.State) (c : client.State)
    (rx rx' rx3 : List Nat) (f : Nat)
    (hs : s.header_buffer.length = 20) (hc : c.header_buffer.length = 20)
    (hrx : rx.length = 20) (hrx' : rx'.length = 20) :
    ((∀ i, i ∈ [0, 1, 4, 5, 6, 7] → rx.getD i 0 = rx'.getD i 0) →
      ∃ msg : List Nat, msg.length = 20 ∧ msg.getD 13 0 = 0x12 ∧
        (server.main_step12 e rx s).sent = s.sent ++ [msg] ∧
        (server.main_step12 e rx' s).sent = s.sent ++ [msg]) ∧
    ((∀ i, i ∈ [4, 5, 6, 7] → rx.getD i 0 = rx'.getD i 0) →
      ∃ msg : List Nat, msg.length = 20 ∧ msg.getD 13 0 = 0x10 ∧
        (client.main_step23 e rx c).sent = c.sent ++ [msg] ∧
        (client.main_step23 e rx' c).sent = c.sent ++ [msg]) ∧
    (∃ msg : List Nat, msg.length = 20 ∧ msg.getD 13 0 = 0x12 ∧
      (server.main_step12 e rx s).sent = s.sent ++ [msg] ∧
      (server.main_step12 e (rx.set 13 f) s).sent = s.sent ++ [msg] ∧
      (server.main e rx rx3 s).sent = s.sent ++ [msg] ∧
      (server.main e (rx.set 13 f) rx3 s).sent = s.sent ++ [msg]) ∧
    (∃ syn ack : List Nat, syn.length = 20 ∧ ack.length = 20 ∧ ack.getD 13 0 = 0x10 ∧
      (client.main_step23 e rx c).sent = c.sent ++ [ack] ∧
      (client.main_step23 e (rx.set 13 f) c).sent = c.sent ++ [ack] ∧
      (client.main e rx c).sent = c.sent ++ [syn, ack] ∧
      (client.main e (rx.set 13 f) c).sent = c.sent ++ [syn, ack]) ∧
    (∃ pre, (server.main e rx rx3 s).out.console =
        pre ++ "\n3-way handshake completed successfully!\n") ∧
    (∃ pre, (server.main e rx rx3 s).out.file =
        pre ++ "\n3-way handshake completed successfully!\n") ∧
    (∃ pre, (client.main e rx c).out.console =
        pre ++ "\n3-way handshake completed successfully!\n") ∧
    (∃ pre, (client.main e rx c).out.file =
        pre ++ "\n3-way handshake completed successfully!\n") := by
  have hset : (rx.set 13 f).length = 20 := by simpa using hrx
  have hagree : ∀ i, i ∈ [0, 1, 4, 5, 6, 7] → (rx.set 13 f).getD i 0 = rx.getD i 0 := by
    intro i hi
    refine getD_set_flags rx f i ?_
    rintro rfl
    simp at hi
  have srv : ∀ a b : List Nat, a.length = 20 → b.length = 20 →
      (∀ i, i ∈ [0, 1, 4, 5, 6, 7] → a.getD i 0 = b.getD i 0) →
      (server.main_step12 e a s).sent = (server.main_step12 e b s).sent := by
    intro a b ha hb h
    rw [server_step12_sent e a s ha hs, server_step12_sent e b s hb hs,
      readBytes_congr_ports a b ha hb (h 0 (by simp)) (h 1 (by simp)),
      readBytes_congr_seq a b ha hb (h 4 (by simp)) (h 5 (by simp)) (h 6 (by simp))
        (h 7 (by simp))]
  have cli : ∀ (st : client.State) (a b : List Nat), st.header_buffer.length = 20 →
      a.length = 20 → b.length = 20 →
      (∀ i, i ∈ [4, 5, 6, 7] → a.getD i 0 = b.getD i 0) →
      (client.main_step23 e a st).sent = (client.main_step23 e b st).sent := by
    intro st a b hst ha hb h
    rw [client_step23_sent e a st ha hst, client_step23_sent e b st hb hst,
      readBytes_congr_seq a b ha hb (h 4 (by simp)) (h 5 (by simp)) (h 6 (by simp))
        (h 7 (by simp))]
  have hagree4 : ∀ i, i ∈ [4, 5, 6, 7] → (rx.set 13 f).getD i 0 = rx.getD i 0 := by
    intro i hi
    refine hagree i ?_
    simp at hi ⊢
    omega
  have h1b : (client.main_step1 e c).header_buffer.length = 20 := by
    rw [client_step1_buffer e c hc]; rfl
  have hmain : (client.main e rx c).sent =
      c.sent ++ [wire c.src_port c.port c.client_seq_num 0 FLAG_SYN,
        wire c.src_port c.port (add32 c.client_seq_num 1)
          (add32 (ntohl e (objVal e (readBytes rx 4 4))) 1) FLAG_ACK] := by
    have h := client_step23_sent e rx (client.main_step1 e c) hrx h1b
    rw [client_step1_sent e c hc] at h
    have h' : (client.main e rx c).sent =
        c.sent ++ [wire c.src_port c.port c.client_seq_num 0 FLAG_SYN] ++
          [wire c.src_port c.port (add32 c.client_seq_num 1)
            (add32 (ntohl e (objVal e (readBytes rx 4 4))) 1) FLAG_ACK] := h
    rw [h']; simp
  refine ⟨?_, ?_, ?_, ?_, ⟨_, rfl⟩, ⟨_, rfl⟩, ⟨_, rfl⟩, ⟨_, rfl⟩⟩
  · intro h
    exact ⟨_, wire_length _ _ _ _ _, wire_flags _ _ _ _ _, server_step12_sent e rx s hrx hs,
      (srv rx' rx hrx' hrx (fun i hi => (h i hi).symm)).trans
        (server_step12_sent e rx s hrx hs)⟩
  · intro h
    exact ⟨_, wire_length _ _ _ _ _, wire_flags _ _ _ _ _, client_step23_sent e rx c hrx hc,
      (cli c rx' rx hc hrx' hrx (fun i hi => (h i hi).symm)).trans
        (client_step23_sent e rx c hrx hc)⟩
  · exact ⟨_, wire_length _ _ _ _ _, wire_flags _ _ _ _ _, server_step12_sent e rx s hrx hs,
      (srv _ rx hset hrx hagree).trans (server_step12_sent e rx s hrx hs),
      server_step12_sent e rx s hrx hs,
      (srv _ rx hset hrx hagree).trans (server_step12_sent e rx s hrx hs)⟩
  · exact ⟨_, _, wire_length _ _ _ _ _, wire_length _ _ _ _ _, wire_flags _ _ _ _ _,
      client_step23_sent e rx c hrx hc,
      (cli c _ rx hc hset hrx hagree4).trans (client_step23_sent e rx c hrx hc),
      hmain,
      (cli (client.main_step1 e c) _ rx h1b hset hrx hagree4).trans hmain⟩

theorem fmt02X_space (x : Nat) (hx : x < 256) :
    fmt02X x ++ " " = String.mk [hexDigitUpper (x / 16), hexDigitUpper (x % 16), ' '] := by
  rw [fmt02X_eq x hx]
  rfl

theorem print_raw_header_eq (b : List Nat) (o : Output) (hb : b.length = 20)
    (hbytes : isBytes b) :
    client.print_raw_header b HEADER_SIZE o =
      { console := o.console ++ rawText b, file := o.file ++ rawText b } := by
  obtain ⟨a0, a1, a2, a3, a4, a5, a6, a7, a8, a9, a10, a11, a12, a13, a14, a15, a16, a17,
    a18, a19, rfl⟩ := exists_twenty_of_length_eq b hb
  simp only [isBytes, List.mem_cons, List.mem_singleton, forall_eq_or_imp, forall_eq] at hbytes
  obtain ⟨g0, g1, g2, g3, g4, g5, g6, g7, g8, g9, g10, g11, g12, g13, g14, g15, g16, g17,
    g18, g19, -⟩ := hbytes
  have hr : List.range HEADER_SIZE =
      [0, 1, 2, 3, 4, 5, 6, 7, 8, 9, 10, 11, 12, 13, 14, 15, 16, 17, 18, 19] := by decide
  simp only [client.print_raw_header, hr, List.foldl, printf, fprintf, rawText, List.map,
    String.join, List.getD_cons_zero, List.getD_cons_succ, fmt02X_space, String.append_assoc,
    String.empty_append, *]

theorem print_tcp_header_eq (e : ByteOrder) (b : List Nat) (h0 : tcp_header_t) (o : Output)
    (hb : b.length = 20) (hbytes : isBytes b) :
    client.print_tcp_header e (client.deserialize_tcp_header e b h0) o =
      { console := o.console ++ decodedText b, file := o.file ++ decodedText b } := by
  obtain ⟨a0, a1, a2, a3, a4, a5, a6, a7, a8, a9, a10, a11, a12, a13, a14, a15, a16, a17,
    a18, a19, rfl⟩ := exists_twenty_of_length_eq b hb
  simp only [isBytes, List.mem_cons, List.mem_singleton, forall_eq_or_imp, forall_eq] at hbytes
  obtain ⟨g0, g1, g2, g3, g4, g5, g6, g7, g8, g9, g10, g11, g12, g13, g14, g15, g16, g17,
    g18, g19, -⟩ := hbytes
  rw [deserialize_eq]
  simp only [client.print_tcp_header, decodedText, be32, List.getD_cons_zero,
    List.getD_cons_succ, ntohs_objVal e a0 a1 g0 g1, ntohs_objVal e a2 a3 g2 g3,
    ntohl_objVal e a4 a5 a6 a7 g4 g5 g6 g7, ntohl_objVal e a8 a9 a10 a11 g8 g9 g10 g11,
    flag_syn_iff a13 g13, flag_ack_iff a13 g13]
  by_cases hsyn : a13.testBit 1 = true <;> by_cases hack : a13.testBit 4 = true <;>
    simp only [hsyn, hack, printf, fprintf, String.append_assoc, String.append_empty,
      String.empty_append, if_true, if_false, not_true_eq_false, not_false_eq_true, ne_eq,
      reduceCtorEq]

/-- C8: for every buffer `b` of twenty bytes, on either host byte order, what
`print_tcp_header` appends to the log for the header that `deserialize_tcp_header` read
from `b` is the text showing source port `256*b[0]+b[1]`, destination port `256*b[2]+b[3]`,
the sequence and acknowledgment numbers as the unsigned big-endian values of `b[4..7]` and
`b[8..11]`, and a flags line with "SYN " exactly when bit 0x02 of `b[13]` is set followed
by "ACK " exactly when bit 0x10 is set; what `print_raw_header` appends is the twenty bytes
in order, each as two upper-case hex digits and a space. The same text goes to the console
and to the file, and the functions of `server.c` produce the same output. -/
theorem C8_logged_fields (e : ByteOrder) (b : List Nat) (h0 : tcp_header_t) (o : Output)
    (hb : b.length = 20) (hbytes : isBytes b) :
    client.print_tcp_header e (client.deserialize_tcp_header e b h0) o =
      { console := o.console ++ decodedText b, file := o.file ++ decodedText b } ∧
    client.print_raw_header b HEADER_SIZE o =
      { console := o.console ++ rawText b, file := o.file ++ rawText b } ∧
    server.print_tcp_header e (server.deserialize_tcp_header e b h0) o =
      { console := o.console ++ decodedText b, file := o.file ++ decodedText b } ∧
    server.print_raw_header b HEADER_SIZE o =
      { console := o.console ++ rawText b, file := o.file ++ rawText b } := by
  rw [server_print_tcp_eq_client, server_deserialize_eq_client, server_print_raw_eq_client]
  exact ⟨print_tcp_header_eq e b h0 o hb hbytes, print_raw_header_eq b o hb hbytes,
    print_tcp_header_eq e b h0 o hb hbytes, print_raw_header_eq b o hb hbytes⟩

/-- C8 witness: the log of the sample SYN-ACK on a little-endian host, written out. -/
theorem C8_logged_fields_witness :
    sampleSynAck.length = 20 ∧ isBytes sampleSynAck ∧
    client.print_tcp_header ByteOrder.little
        (client.deserialize_tcp_header ByteOrder.little sampleSynAck staleHeader) ⟨"", ""⟩ =
      { console := "" ++ decodedText sampleSynAck, file := "" ++ decodedText sampleSynAck } ∧
    decodedText sampleSynAck =
      "Source port: 8080\nDestination port: 54321\nSequence number: 4294967295\nAcknowledgment number: 0\nFlags: SYN ACK \n" ∧
    rawText sampleSynAck =
      "Raw TCP Header: 1F 90 D4 31 FF FF FF FF 00 00 00 00 50 12 44 70 FF FF 00 00 \n" :=
  ⟨by decide, by decide,
    (C8_logged_fields ByteOrder.little sampleSynAck staleHeader ⟨"", ""⟩ (by decide)
      (by decide)).1, by decide, by decide⟩

/-- C7 witness: the sample server and the sample client on a big-endian host, receiving
the sample SYN as it is and with its flags byte cleared: the same twenty-byte reply is
appended to the messages sent in both cases. -/
theorem C7_no_flag_validation_witness :
    (sampleServer.header_buffer.length = 20 ∧ sampleClient.header_buffer.length = 20 ∧
      sampleSyn.length = 20 ∧ sampleSynAck.length = 20) ∧
    (∃ msg : List Nat, msg.length = 20 ∧ msg.getD 13 0 = 0x12 ∧
      (server.main_step12 ByteOrder.big sampleSyn sampleServer).sent =
        sampleServer.sent ++ [msg] ∧
      (server.main_step12 ByteOrder.big (sampleSyn.set 13 0) sampleServer).sent =
        sampleServer.sent ++ [msg] ∧
      (server.main ByteOrder.big sampleSyn sampleSyn sampleServer).sent =
        sampleServer.sent ++ [msg] ∧
      (server.main ByteOrder.big (sampleSyn.set 13 0) sampleSyn sampleServer).sent =
        sampleServer.sent ++ [msg]) ∧
    (∃ syn ack : List Nat, syn.length = 20 ∧ ack.length = 20 ∧ ack.getD 13 0 = 0x10 ∧
      (client.main_step23 ByteOrder.big sampleSyn sampleClient).sent =
        sampleClient.sent ++ [ack] ∧
      (client.main_step23 ByteOrder.big (sampleSyn.set 13 0) sampleClient).sent =
        sampleClient.sent ++ [ack] ∧
      (client.main ByteOrder.big sampleSyn sampleClient).sent =
        sampleClient.sent ++ [syn, ack] ∧
      (client.main ByteOrder.big (sampleSyn.set 13 0) sampleClient).sent =
        sampleClient.sent ++ [syn, ack]) :=
  ⟨by decide,
    (C7_no_flag_validation ByteOrder.big sampleServer sampleClient sampleSyn sampleSynAck
      sampleSyn 0 (by decide) (by decide) (by decide) (by decide)).2.2.1,
    (C7_no_flag_validation ByteOrder.big sampleServer sampleClient sampleSyn sampleSynAck
      sampleSyn 0 (by decide) (by decide) (by decide) (by decide)).2.2.2.1⟩

end Handshake
